import Mathlib

/-!
Verification development for the BCL interpreter core (C sources under
`src/` and `include/`): scope/variable model, expression evaluator,
multi-line block parser, block executor and procedure calls.

Modelling conventions:
* C strings are `List Char` (`Str`); only byte-level ASCII behaviour of
  `tolower`/`isspace`/… matters to the modelled code paths.
* C `double` values are modelled as exact rationals (`Rat`).  Every
  arithmetic operation exercised by a verified claim (integer +,-,*,
  comparisons, division incl. division by zero, step arithmetic of FOR
  loops) is exact in both models; transcendental library functions,
  which no claim exercises, are modelled as the constant 0 with a note
  at their definition.
* The case-insensitive hash tables (`bcl_hash.c`) are modelled as
  association lists with case-insensitive key comparison; bucket order
  is immaterial to every modelled operation (first match wins in both).
* Potential non-termination (WHILE loops, subcommand recursion,
  procedure recursion) is handled by a fuel parameter; `none` means
  "fuel exhausted", never an interpreter outcome.
* malloc-failure paths of the C code are not modelled.
-/

/-! ## Characters and strings (`bcl_string.c`, ctype) -/

abbrev Str := List Char

/-- ASCII `isspace`. -/
def c_isspace (c : Char) : Bool :=
  c = ' ' || c = '\t' || c = '\n' || (c = Char.ofNat 11) || (c = Char.ofNat 12) || c = '\r'

/-- ASCII `isdigit`. -/
def c_isdigit (c : Char) : Bool := '0' ≤ c && c ≤ '9'

/-- ASCII `isalpha`. -/
def c_isalpha (c : Char) : Bool := ('a' ≤ c && c ≤ 'z') || ('A' ≤ c && c ≤ 'Z')

/-- ASCII `isalnum`. -/
def c_isalnum (c : Char) : Bool := c_isalpha c || c_isdigit c

/-- ASCII `tolower`. -/
def c_tolower (c : Char) : Char :=
  if 'A' ≤ c && c ≤ 'Z' then Char.ofNat (c.toNat + 32) else c

/-- Lower-case a whole string (used to model case-insensitive compares). -/
def strLower (s : Str) : Str := s.map c_tolower

/-- `bcl_strcasecmp s t = 0`, i.e. case-insensitive equality. -/
def strEqCI (s t : Str) : Bool := strLower s = strLower t

/-- `bcl_strncasecmp s t n = 0` where `t` is a keyword: case-insensitive
prefix test (`s` starts with `t` up to case). -/
def startsWithCI (s kw : Str) : Bool := strLower (s.take kw.length) = strLower kw

/-- Drop leading whitespace (the ubiquitous `while isspace p++` loops). -/
def dropWs (s : Str) : Str := s.dropWhile (fun c => c_isspace c)

/-- Trim trailing whitespace (the `while isspace condition[len-1]` loops). -/
def rtrimWs (s : Str) : Str := (dropWs s.reverse).reverse

/-- Whitespace-split into non-empty tokens (models the `strtok`-style
loops over `" \t"` or whitespace used by `eval_condition`,
`eval_block_condition`, FOR/FOREACH condition parsing and PROC params). -/
def splitWs (s : Str) : List Str :=
  ((s.splitOnP (fun c => c_isspace c)).filter (fun t => t ≠ []))

/-- Split a script into lines as `strtok_r(code, "\n", …)` does:
`\n`-separated, empty pieces dropped. -/
def splitLines (s : Str) : List Str :=
  ((s.splitOnP (fun c => c = '\n')).filter (fun t => t ≠ []))

/-! ## Numbers: `strtod`, `bcl_str_to_number`, printf renderings

C doubles are modelled as exact rationals; see the header note. -/

/-- Digits to a natural number accumulator. -/
def digitsToNat (ds : Str) : Nat :=
  ds.foldl (fun acc c => 10 * acc + (c.toNat - '0'.toNat)) 0

/-- Core of `strtod`: parse an optional sign, integer digits, an optional
fractional part and an optional decimal exponent, returning the value and
the unconsumed rest (the `endptr`).  If no digit is consumed the value is
0 and the rest is the whole input (no conversion).  C `strtod`'s hex /
inf / nan forms are not modelled; no modelled code path feeds them. -/
def strtod (s : Str) : Rat × Str :=
  let s1 := dropWs s
  let (neg, s2) :=
    match s1 with
    | '-' :: r => (true, r)
    | '+' :: r => (false, r)
    | _ => (false, s1)
  let intDs := s2.takeWhile (fun c => c_isdigit c)
  let s3 := s2.drop intDs.length
  let (fracDs, s4) :=
    match s3 with
    | '.' :: r =>
        let fd := r.takeWhile (fun c => c_isdigit c)
        (fd, r.drop fd.length)
    | _ => ([], s3)
  if intDs = [] ∧ fracDs = [] then (0, s)
  else
    let mant : Rat :=
      (digitsToNat intDs : Rat) + (digitsToNat fracDs : Rat) / ((10 : Rat) ^ fracDs.length)
    let (expVal, s5) :=
      match s4 with
      | 'e' :: r | 'E' :: r =>
          let (eneg, r2) :=
            match r with
            | '-' :: r' => (true, r')
            | '+' :: r' => (false, r')
            | _ => (false, r)
          let expDs := r2.takeWhile (fun c => c_isdigit c)
          if expDs = [] then ((0 : Int), s4)
          else ((if eneg then -(digitsToNat expDs : Int) else (digitsToNat expDs : Int)), r2.drop expDs.length)
      | _ => ((0 : Int), s4)
    let scaled : Rat :=
      if 0 ≤ expVal then mant * (10 : Rat) ^ expVal.toNat
      else mant / ((10 : Rat) ^ (-expVal).toNat)
    ((if neg then -scaled else scaled), s5)

/-- `atof`. -/
def atof (s : Str) : Rat := (strtod s).1

/-- `bcl_str_to_number`: `strtod`, then the conversion is "ok" iff only
whitespace remains after the parsed prefix. -/
def bcl_str_to_number (s : Str) : Rat × Bool :=
  if s = [] then (0, false)
  else
    let (v, rest) := strtod s
    (v, dropWs rest = [])

/-- Render a natural number in decimal. -/
def natToStr (n : Nat) : Str := Nat.toDigits 10 n

/-- Render an integer in decimal. -/
def intToStr (i : Int) : Str :=
  if i < 0 then '-' :: natToStr i.natAbs else natToStr i.natAbs

/-- `printf "%.0f"` of a rational: round to nearest, ties to even (glibc
behaviour), and print the integer.  Every modelled use site feeds it an
integral value, for which it is exact. -/
def fmt0f (r : Rat) : Str :=
  let f : Int := r.floor
  let frac : Rat := r - (f : Rat)
  let i : Int :=
    if frac < 1/2 then f
    else if frac > 1/2 then f + 1
    else if f % 2 = 0 then f else f + 1
  intToStr i

/-- `printf "%.15g"` of a non-integral rational, simplified: 15
significant digits, trailing zeros stripped, no exponent form.  No
verified claim exercises this branch (all claim values are integral);
it exists so `fmt_num` is total and executable. -/
def fmtG15 (r : Rat) : Str :=
  if r = 0 then ['0']
  else
    let sgn : Str := if r < 0 then ['-'] else []
    let a : Rat := |r|
    let ip : Nat := a.floor.toNat
    let ipStr := natToStr ip
    let sig := ipStr.length
    let fracDigits : Nat := if 15 ≤ sig then 0 else 15 - sig
    let scaled : Nat := (a * (10 : Rat) ^ fracDigits).floor.toNat
    let frac : Nat := scaled - ip * 10 ^ fracDigits
    let fracStr := natToStr frac
    let fracPadded := List.replicate (fracDigits - fracStr.length) '0' ++ fracStr
    let fracTrimmed := (fracPadded.reverse.dropWhile (fun c => c = '0')).reverse
    if fracTrimmed = [] then sgn ++ ipStr
    else sgn ++ ipStr ++ '.' :: fracTrimmed

/-- The EXPR / FOR-counter rendering: integers print without a decimal
point (`%.0f`), other values via `%.15g` (`bcl_expr.c` lines 430-435,
`bcl_block.c` lines 782-787). -/
def fmt_num (r : Rat) : Str :=
  if r.den = 1 then intToStr r.num else fmtG15 r

/-! ## Signals (`bcl_result_t`, `bcl.h` lines 63-69) -/

inductive bcl_result_t : Type where
  | BCL_OK
  | BCL_ERROR
  | BCL_BREAK
  | BCL_CONTINUE
  | BCL_RETURN
  | BCL_EXIT
  deriving DecidableEq, Repr

open bcl_result_t

/-! ## Case-insensitive hash tables (`bcl_hash.c`)

Modelled as association lists: `bcl_hash_get` returns the first entry
whose key compares equal under `bcl_strcasecmp`; at most one such entry
ever exists because `bcl_hash_set` updates in place. Bucket order never
matters to the modelled operations. -/

abbrev bcl_hash_table_t (α : Type) := List (Str × α)

def bcl_hash_get {α : Type} (t : bcl_hash_table_t α) (key : Str) : Option α :=
  match t.find? (fun e => strEqCI e.1 key) with
  | some e => some e.2
  | none => none

def bcl_hash_exists {α : Type} (t : bcl_hash_table_t α) (key : Str) : Bool :=
  (bcl_hash_get t key).isSome

def bcl_hash_set {α : Type} (t : bcl_hash_table_t α) (key : Str) (v : α) : bcl_hash_table_t α :=
  match t with
  | [] => [(key, v)]
  | e :: rest =>
      if strEqCI e.1 key then (e.1, v) :: rest
      else e :: bcl_hash_set rest key v

def bcl_hash_remove {α : Type} (t : bcl_hash_table_t α) (key : Str) : bcl_hash_table_t α :=
  match t with
  | [] => []
  | e :: rest =>
      if strEqCI e.1 key then rest
      else e :: bcl_hash_remove rest key

/-! ## Blocks (`bcl_block.c` lines 18-58) -/

inductive block_type_t : Type where
  | BLOCK_NONE
  | BLOCK_IF
  | BLOCK_ELSEIF
  | BLOCK_ELSE
  | BLOCK_WHILE
  | BLOCK_FOR
  | BLOCK_FOREACH
  | BLOCK_SWITCH
  | BLOCK_CASE
  | BLOCK_DEFAULT
  | BLOCK_PROC
  deriving DecidableEq, Repr

open block_type_t

mutual
inductive bcl_block : Type where
  | mk : block_type_t → Option Str → Option Str → Option Str →
         List block_item → List bcl_block → bcl_block

inductive block_item : Type where
  | line : Str → block_item
  | block : bcl_block → block_item
end

def bcl_block.type : bcl_block → block_type_t
  | .mk t _ _ _ _ _ => t

def bcl_block.condition : bcl_block → Option Str
  | .mk _ c _ _ _ _ => c

def bcl_block.proc_name : bcl_block → Option Str
  | .mk _ _ n _ _ _ => n

def bcl_block.proc_params : bcl_block → Option Str
  | .mk _ _ _ p _ _ => p

def bcl_block.items : bcl_block → List block_item
  | .mk _ _ _ _ i _ => i

def bcl_block.children : bcl_block → List bcl_block
  | .mk _ _ _ _ _ c => c

/-- Append an item (`block_add_line` / `block_add_block_item`). -/
def bcl_block.addItem : bcl_block → block_item → bcl_block
  | .mk t c n p i ch, it => .mk t c n p (i ++ [it]) ch

/-- Append a sibling child (`block_add_child`). -/
def bcl_block.addChild : bcl_block → bcl_block → bcl_block
  | .mk t c n p i ch, b => .mk t c n p i (ch ++ [b])

/-! ## Scopes, procedures, interpreter state (`bcl.h`, `bcl_interp.c`) -/

/-- `bcl_scope_t`: local variables plus the two GLOBAL-registration
tables. -/
structure bcl_scope_t : Type where
  vars : bcl_hash_table_t Str
  global_refs : bcl_hash_table_t Str
  global_prefixes : bcl_hash_table_t Str
  deriving Repr

/-- `bcl_param_t`: parameter name and optional flag. -/
structure bcl_param_t : Type where
  name : Str
  optional : Bool
  deriving Repr

/-- `bcl_procedure_t`.  The C code stores procedures behind a
`%p`-formatted pointer string in a hash table; the model keeps the
direct association, which is what that indirection implements. -/
structure bcl_procedure_t : Type where
  name : Str
  params : List bcl_param_t
  body_block : Option bcl_block

/-- The modelled slice of `bcl_interp_t`: variable/procedure state,
the scope stack (head = innermost scope), pending return value, last
error message and exit code.  File handles, argv and the extension
registry belong to out-of-scope leaf subsystems (spec section 1). -/
structure bcl_interp_t : Type where
  global_vars : bcl_hash_table_t Str
  procedures : bcl_hash_table_t bcl_procedure_t
  scope_stack : List bcl_scope_t
  return_value : Option Str
  error_msg : Str
  exit_code : Int

/-- `BCL_MAX_RECURSION` (`bcl.h` line 43). -/
def BCL_MAX_RECURSION : Nat := 1000

/-- `BCL_MAX_SCOPE_DEPTH` (`bcl.h` line 44). -/
def BCL_MAX_SCOPE_DEPTH : Nat := 256

/-- `bcl_set_error` (message formatting already done by the caller). -/
def bcl_set_error (st : bcl_interp_t) (msg : Str) : bcl_interp_t :=
  { st with error_msg := msg }

/-- `scope_create`: fresh empty scope. -/
def scope_create : bcl_scope_t := ⟨[], [], []⟩

/-- `bcl_scope_push` (`bcl_interp.c` lines 160-179). -/
def bcl_scope_push (st : bcl_interp_t) : bcl_result_t × bcl_interp_t :=
  if BCL_MAX_SCOPE_DEPTH ≤ st.scope_stack.length then
    (BCL_ERROR, bcl_set_error st ("Maximum scope depth exceeded").data)
  else
    (BCL_OK, { st with scope_stack := scope_create :: st.scope_stack })

/-- `bcl_scope_pop` (`bcl_interp.c` lines 184-202). -/
def bcl_scope_pop (st : bcl_interp_t) : bcl_result_t × bcl_interp_t :=
  match st.scope_stack with
  | [] => (BCL_ERROR, bcl_set_error st ("No scope to pop").data)
  | _ :: rest => (BCL_OK, { st with scope_stack := rest })

/-- `get_current_scope`. -/
def get_current_scope (st : bcl_interp_t) : Option bcl_scope_t :=
  st.scope_stack.head?

/-- The array-container key `name(` of `name(idx)`: everything up to and
including the first `(`, if any (`is_global_var`'s `strchr` logic). -/
def array_container_key (name : Str) : Option Str :=
  if name.any (fun c => c = '(') then
    some ((name.takeWhile (fun c => c ≠ '(')) ++ ['('])
  else none

/-- `is_global_var` (`bcl_interp.c` lines 218-244): no local scope means
global; otherwise an exact hit in `global_refs`, or a container-prefix
hit in `global_prefixes` for array-element names. -/
def is_global_var (scope : Option bcl_scope_t) (name : Str) : Bool :=
  match scope with
  | none => true
  | some sc =>
      if bcl_hash_exists sc.global_refs name then true
      else
        match array_container_key name with
        | some pfx => bcl_hash_exists sc.global_prefixes pfx
        | none => false

/-- Replace the innermost scope. -/
def set_current_scope (st : bcl_interp_t) (sc : bcl_scope_t) : bcl_interp_t :=
  match st.scope_stack with
  | [] => st
  | _ :: rest => { st with scope_stack := sc :: rest }

/-- `bcl_var_set` (`bcl_interp.c` lines 250-272). -/
def bcl_var_set (st : bcl_interp_t) (name value : Str) : bcl_interp_t :=
  match get_current_scope st with
  | none => { st with global_vars := bcl_hash_set st.global_vars name value }
  | some sc =>
      if is_global_var (some sc) name then
        { st with global_vars := bcl_hash_set st.global_vars name value }
      else
        set_current_scope st { sc with vars := bcl_hash_set sc.vars name value }

/-- `bcl_var_get` (`bcl_interp.c` lines 274-290): local scope first, the
global namespace as fallback. -/
def bcl_var_get (st : bcl_interp_t) (name : Str) : Option Str :=
  match get_current_scope st with
  | none => bcl_hash_get st.global_vars name
  | some sc =>
      match bcl_hash_get sc.vars name with
      | some v => some v
      | none => bcl_hash_get st.global_vars name

/-- `bcl_var_exists`. -/
def bcl_var_exists (st : bcl_interp_t) (name : Str) : Bool :=
  match get_current_scope st with
  | none => bcl_hash_exists st.global_vars name
  | some sc => bcl_hash_exists sc.vars name || bcl_hash_exists st.global_vars name

/-- `bcl_var_unset`. -/
def bcl_var_unset (st : bcl_interp_t) (name : Str) : bcl_interp_t :=
  match get_current_scope st with
  | none => { st with global_vars := bcl_hash_remove st.global_vars name }
  | some sc =>
      if bcl_hash_exists sc.vars name then
        set_current_scope st { sc with vars := bcl_hash_remove sc.vars name }
      else
        { st with global_vars := bcl_hash_remove st.global_vars name }

/-- `bcl_value_to_bool` (`bcl_value.c`): empty and `"0"` are false. -/
def bcl_value_to_bool (s : Str) : Bool :=
  if s = [] then false else if s = ['0'] then false else true

/-- `bcl_proc_define` (`bcl_interp.c` lines 383-404). -/
def bcl_proc_define (st : bcl_interp_t) (name : Str) (params : List bcl_param_t)
    (body : Option bcl_block) : bcl_result_t × bcl_interp_t :=
  (BCL_OK, { st with procedures := bcl_hash_set st.procedures name ⟨name, params, body⟩ })

/-- `bcl_proc_exists`. -/
def bcl_proc_exists (st : bcl_interp_t) (name : Str) : Bool :=
  bcl_hash_exists st.procedures name

/-- Number of required (non-optional) parameters (`bcl_proc_call`
lines 428-431). -/
def required_param_count (p : bcl_procedure_t) : Nat :=
  (p.params.filter (fun q => !q.optional)).length

/-- The state a procedure body starts in: scope pushed and the first
`min argCount paramCount` parameters bound positionally
(`bcl_proc_call` lines 439-448, after the push succeeded). -/
def proc_entry_state (st : bcl_interp_t) (proc : bcl_procedure_t)
    (args : List Str) : bcl_interp_t :=
  let pushed := { st with scope_stack := scope_create :: st.scope_stack }
  (List.zip proc.params args).foldl
    (fun s pa => bcl_var_set s pa.1.name pa.2) pushed

/-! ## Expression evaluator (`bcl_expr.c`) -/

inductive token_type_t : Type where
  | TOK_NUMBER
  | TOK_PLUS
  | TOK_MINUS
  | TOK_MULTIPLY
  | TOK_DIVIDE
  | TOK_MODULO
  | TOK_POWER
  | TOK_LPAREN
  | TOK_RPAREN
  | TOK_COMMA
  | TOK_LT
  | TOK_LE
  | TOK_GT
  | TOK_GE
  | TOK_EQ
  | TOK_NE
  | TOK_AND
  | TOK_OR
  | TOK_NOT
  | TOK_FUNCTION
  | TOK_END
  deriving DecidableEq, Repr

open token_type_t

structure expr_token_t : Type where
  type : token_type_t
  value : Rat := 0
  func_name : Str := []
  deriving Repr

/-- `get_precedence` (`bcl_expr.c` lines 56-75). -/
def get_precedence (t : token_type_t) : Nat :=
  match t with
  | TOK_OR => 1
  | TOK_AND => 2
  | TOK_EQ | TOK_NE => 3
  | TOK_LT | TOK_LE | TOK_GT | TOK_GE => 4
  | TOK_PLUS | TOK_MINUS => 5
  | TOK_MULTIPLY | TOK_DIVIDE | TOK_MODULO => 6
  | TOK_NOT => 7
  | TOK_POWER => 8
  | _ => 0

/-- `is_right_associative`. -/
def is_right_associative (t : token_type_t) : Bool :=
  t = TOK_POWER || t = TOK_NOT

/-- Truncation toward zero (the C `(int)` cast / `fmod` quotient). -/
def ratTrunc (x : Rat) : Int :=
  if 0 ≤ x then x.floor else -((-x).floor)

/-- C `round`: nearest, ties away from zero. -/
def ratRoundAway (x : Rat) : Int :=
  if 0 ≤ x then (x + 1/2).floor else -(((-x) + 1/2).floor)

/-- C `fmod` over the rational model: exact for `r ≠ 0`; `fmod(l, 0)` is
NaN in C, which has no rational counterpart — modelled as 0 (no verified
claim evaluates a modulo). -/
def ratFmod (l r : Rat) : Rat :=
  if r = 0 then 0 else l - r * (ratTrunc (l / r) : Rat)

/-- C `pow` over the rational model: exact for integer exponents (with
`pow(0, negative) = +inf` modelled as 0); non-integer exponents give
irrational results outside the model and yield 0.  No verified claim
evaluates a power. -/
def ratPow (l r : Rat) : Rat :=
  if r.den = 1 then
    if 0 ≤ r.num then l ^ r.num.toNat
    else if l = 0 then 0 else (l ^ (-r.num).toNat)⁻¹
  else 0

/-- `eval_function` (`bcl_expr.c` lines 85-133).  The exactly-representable
functions are modelled exactly; the transcendental ones (trig, hyperbolic,
roots, logs, exp, rand, rad/deg) produce irrational or random doubles with
no rational counterpart and are modelled as 0 — no verified claim calls
them.  Unknown names return 0 as in C. -/
def eval_function (name : Str) (arg : Rat) : Rat :=
  if strEqCI name ("abs").data then |arg|
  else if strEqCI name ("int").data then (arg.floor : Rat)
  else if strEqCI name ("double").data then arg
  else if strEqCI name ("ceil").data then (arg.ceil : Rat)
  else if strEqCI name ("floor").data then (arg.floor : Rat)
  else if strEqCI name ("round").data then (ratRoundAway arg : Rat)
  else if strEqCI name ("sign").data then
    if 0 < arg then 1 else if arg < 0 then -1 else 0
  else 0

/-- `eval_function2` (`bcl_expr.c` lines 135-143); see `eval_function`
for the modelling of `hypot`/`atan2`. -/
def eval_function2 (name : Str) (a1 a2 : Rat) : Rat :=
  if strEqCI name ("pow").data then ratPow a1 a2
  else if strEqCI name ("min").data then if a1 < a2 then a1 else a2
  else if strEqCI name ("max").data then if a1 > a2 then a1 else a2
  else if strEqCI name ("fmod").data then ratFmod a1 a2
  else 0

/-- `is_function2`. -/
def is_function2 (name : Str) : Bool :=
  strEqCI name ("pow").data || strEqCI name ("hypot").data ||
  strEqCI name ("atan2").data || strEqCI name ("min").data ||
  strEqCI name ("max").data || strEqCI name ("fmod").data

/-- `apply_operator` (`bcl_expr.c` lines 261-279).  Division by zero
yields 0.0; `==`/`!=` compare with epsilon 1e-10 (the model uses the
exact 10⁻¹⁰; the double literal differs from it by < 3e-27, irrelevant
to every modelled comparison). -/
def apply_operator (op : token_type_t) (left right : Rat) : Rat :=
  match op with
  | TOK_PLUS => left + right
  | TOK_MINUS => left - right
  | TOK_MULTIPLY => left * right
  | TOK_DIVIDE => if right ≠ 0 then left / right else 0
  | TOK_MODULO => ratFmod left right
  | TOK_POWER => ratPow left right
  | TOK_LT => if left < right then 1 else 0
  | TOK_LE => if left ≤ right then 1 else 0
  | TOK_GT => if left > right then 1 else 0
  | TOK_GE => if left ≥ right then 1 else 0
  | TOK_EQ => if |left - right| < 1 / 10 ^ 10 then 1 else 0
  | TOK_NE => if |left - right| ≥ 1 / 10 ^ 10 then 1 else 0
  | TOK_AND => if left ≠ 0 ∧ right ≠ 0 then 1 else 0
  | TOK_OR => if left ≠ 0 ∨ right ≠ 0 then 1 else 0
  | _ => 0

/-- `is_func_char`. -/
def is_func_char (c : Char) : Bool := c_isalpha c || c = '_'

/-- `parse_expr_token` (`bcl_expr.c` lines 168-255): one token and the
unconsumed rest; an unrecognized character yields `TOK_END` without
consuming (stopping the evaluator there, as in C). -/
def parse_expr_token (s : Str) : expr_token_t × Str :=
  let p := dropWs s
  match p with
  | [] => (⟨TOK_END, 0, []⟩, [])
  | c :: rest =>
    if c_isdigit c || (c = '.' && (match rest with | d :: _ => c_isdigit d | [] => false)) then
      let (v, r) := strtod p
      (⟨TOK_NUMBER, v, []⟩, r)
    else if is_func_char c then
      let nm := p.takeWhile (fun ch => is_func_char ch)
      let r := p.drop nm.length
      if strEqCI nm ("AND").data then (⟨TOK_AND, 0, []⟩, r)
      else if strEqCI nm ("OR").data then (⟨TOK_OR, 0, []⟩, r)
      else if strEqCI nm ("NOT").data then (⟨TOK_NOT, 0, []⟩, r)
      else (⟨TOK_FUNCTION, 0, nm⟩, r)
    else
      match p with
      | '*' :: '*' :: r => (⟨TOK_POWER, 0, []⟩, r)
      | '<' :: '=' :: r => (⟨TOK_LE, 0, []⟩, r)
      | '>' :: '=' :: r => (⟨TOK_GE, 0, []⟩, r)
      | '!' :: '=' :: r => (⟨TOK_NE, 0, []⟩, r)
      | '&' :: '&' :: r => (⟨TOK_AND, 0, []⟩, r)
      | '|' :: '|' :: r => (⟨TOK_OR, 0, []⟩, r)
      | '=' :: '=' :: r => (⟨TOK_EQ, 0, []⟩, r)
      | '+' :: r => (⟨TOK_PLUS, 0, []⟩, r)
      | '-' :: r => (⟨TOK_MINUS, 0, []⟩, r)
      | '*' :: r => (⟨TOK_MULTIPLY, 0, []⟩, r)
      | '/' :: r => (⟨TOK_DIVIDE, 0, []⟩, r)
      | '%' :: r => (⟨TOK_MODULO, 0, []⟩, r)
      | '^' :: r => (⟨TOK_POWER, 0, []⟩, r)
      | '(' :: r => (⟨TOK_LPAREN, 0, []⟩, r)
      | ')' :: r => (⟨TOK_RPAREN, 0, []⟩, r)
      | ',' :: r => (⟨TOK_COMMA, 0, []⟩, r)
      | '<' :: r => (⟨TOK_LT, 0, []⟩, r)
      | '>' :: r => (⟨TOK_GT, 0, []⟩, r)
      | '!' :: r => (⟨TOK_NOT, 0, []⟩, r)
      | _ => (⟨TOK_END, 0, []⟩, p)

/-- Tokenize an expression (the `parse_expr_token` loop of
`bcl_cmd_expr`).  Each non-`TOK_END` token consumes at least one
character, so `s.length + 1` fuel (what `bcl_cmd_expr` passes) never
runs out. -/
def expr_tokenize : Nat → Str → List expr_token_t
  | 0, _ => []
  | fuel + 1, s =>
      let (tok, r) := parse_expr_token s
      if tok.type = TOK_END then []
      else tok :: expr_tokenize fuel r

/-- Apply a popped operator to the value stack the way the operator
branch and the final drain do (`bcl_expr.c` lines 392-401, 412-423):
`NOT` is unary, anything else (including a stray `(` or a function name
reached by the drain) is a generic binary application, skipped when
fewer than the needed operands are on the stack. -/
def apply_tok_generic (op : expr_token_t) (vs : List Rat) : List Rat :=
  if op.type = TOK_NOT then
    match vs with
    | t :: r => (if t = 0 then 1 else 0) :: r
    | [] => []
  else
    match vs with
    | r :: l :: rest => apply_operator op.type l r :: rest
    | _ => vs

/-- Apply a named function with its fixed arity (`bcl_expr.c`
lines 336-350), skipped when operands are missing. -/
def apply_function (fn : Str) (vs : List Rat) : List Rat :=
  if is_function2 fn then
    match vs with
    | a2 :: a1 :: rest => eval_function2 fn a1 a2 :: rest
    | _ => vs
  else
    match vs with
    | a :: rest => eval_function fn a :: rest
    | [] => []

/-- The `)`-handling pop loop (`bcl_expr.c` lines 333-362): pop and apply
until the matching `(` (left on the stack) or the stack empties. -/
def pop_until_lparen : List expr_token_t → List Rat → List expr_token_t × List Rat
  | [], vs => ([], vs)
  | op :: os, vs =>
      if op.type = TOK_LPAREN then (op :: os, vs)
      else
        let vs' :=
          if op.type = TOK_FUNCTION then apply_function op.func_name vs
          else apply_tok_generic op vs
        pop_until_lparen os vs'

/-- The operator-precedence pop loop (`bcl_expr.c` lines 387-406). -/
def pop_ops_for (tk : expr_token_t) : List expr_token_t → List Rat → List expr_token_t × List Rat
  | [], vs => ([], vs)
  | op :: os, vs =>
      if op.type = TOK_LPAREN then (op :: os, vs)
      else
        let prec1 := get_precedence tk.type
        let prec2 := get_precedence op.type
        if prec1 < prec2 ∨ (prec2 = prec1 ∧ ¬ is_right_associative tk.type) then
          pop_ops_for tk os (apply_tok_generic op vs)
        else (op :: os, vs)

/-- The shunting-yard main loop plus final drain of `bcl_cmd_expr`
(`bcl_expr.c` lines 312-427), over the token list and the two stacks
(heads are the stack tops). -/
def shunt : List expr_token_t → List Rat → List expr_token_t → Rat
  | [], vs, os =>
      let vs' := os.foldl (fun v op => apply_tok_generic op v) vs
      match vs' with
      | t :: _ => t
      | [] => 0
  | tok :: toks, vs, os =>
      match tok.type with
      | TOK_NUMBER => shunt toks (tok.value :: vs) os
      | TOK_FUNCTION => shunt toks vs (tok :: os)
      | TOK_LPAREN => shunt toks vs (tok :: os)
      | TOK_COMMA => shunt toks vs os
      | TOK_END => shunt toks vs os
      | TOK_RPAREN =>
          let (os1, vs1) := pop_until_lparen os vs
          let os2 := os1.drop 1
          match os2 with
          | f :: r =>
              if f.type = TOK_FUNCTION then shunt toks (apply_function f.func_name vs1) r
              else shunt toks vs1 os2
          | [] => shunt toks vs1 []
      | _ =>
          let (os1, vs1) := pop_ops_for tok os vs
          shunt toks vs1 (tok :: os1)

/-- `bcl_cmd_expr` (`bcl_expr.c` lines 285-441): join the arguments with
single spaces, tokenize, evaluate, render.  Errors only on zero
arguments. -/
def bcl_cmd_expr (st : bcl_interp_t) (argv : List Str) :
    bcl_result_t × Option Str × bcl_interp_t :=
  match argv with
  | [] => (BCL_ERROR, none,
      bcl_set_error st ("EXPR: wrong # args: should be \"EXPR expression\"").data)
  | _ =>
      let expr := List.intercalate ([' ']) argv
      let toks := expr_tokenize (expr.length + 1) expr
      (BCL_OK, some (fmt_num (shunt toks [] [])), st)

/-! ## Escape decoding and tokenization (`bcl_parser.c`) -/

/-- `needs_escape`. -/
def needs_escape (c : Char) : Bool :=
  c = 'n' || c = 't' || c = 'r' || c = 'a' || c = 'b' || c = 'f' ||
  c = '\\' || c = '"' || c = '\'' || c = 'u' ||
  c = 'd' || c = 'D' || c = 'w' || c = 'W' || c = 's' || c = 'S' ||
  c = '[' || c = ']'

/-- `process_escape`. -/
def process_escape (c : Char) : Char :=
  if c = 'n' then '\n'
  else if c = 't' then '\t'
  else if c = 'r' then '\r'
  else if c = 'a' then Char.ofNat 7
  else if c = 'b' then Char.ofNat 8
  else if c = 'f' then Char.ofNat 12
  else c

/-- Is `c` one of the regex-class escapes whose backslash is preserved? -/
def is_regex_escape (c : Char) : Bool :=
  c = 'd' || c = 'D' || c = 'w' || c = 'W' || c = 's' || c = 'S' ||
  c = '[' || c = ']'

/-- `bcl_decode_escapes` (`bcl_parser.c` lines 53-88). -/
def bcl_decode_escapes : Str → Str
  | [] => []
  | '\\' :: c :: rest =>
      if c = 'u' ∧ 4 ≤ rest.length then
        '\\' :: bcl_decode_escapes (c :: rest)
      else if is_regex_escape c then
        '\\' :: c :: bcl_decode_escapes rest
      else if needs_escape c then
        process_escape c :: bcl_decode_escapes rest
      else
        '\\' :: bcl_decode_escapes (c :: rest)
  | c :: rest => c :: bcl_decode_escapes rest

/-- Double-quoted token body: stop at the closing quote (skipped), keep
backslash pairs verbatim for later escape decoding
(`bcl_next_token` lines 139-156). -/
def scan_dquote : Str → Str → Str × Str
  | [], acc => (acc.reverse, [])
  | '"' :: r, acc => (acc.reverse, r)
  | '\\' :: c :: r, acc => scan_dquote r (c :: '\\' :: acc)
  | c :: r, acc => scan_dquote r (c :: acc)

/-- Bracketed token body: nested brackets kept, the outer pair dropped
(`bcl_next_token` lines 171-187). -/
def scan_bracket : Str → Nat → Str → Str × Str
  | [], _, acc => (acc.reverse, [])
  | c :: r, depth, acc =>
      let depth' := if c = '[' then depth + 1 else if c = ']' then depth - 1 else depth
      if depth' = 0 then (acc.reverse, r)
      else scan_bracket r depth' (c :: acc)

/-- `bcl_next_token` (`bcl_parser.c` lines 120-201): next raw token and
the unconsumed rest; `none` at end of line, at a `#` comment, or at a
stray `]`. -/
def bcl_next_token (s : Str) : Option (Str × Str) :=
  let p := dropWs s
  match p with
  | [] => none
  | '#' :: _ => none
  | '"' :: r => some (scan_dquote r [])
  | '\'' :: r =>
      let tok := r.takeWhile (fun c => c ≠ '\'')
      let rest := r.drop tok.length
      some (tok, rest.drop 1)
  | '[' :: r => some (scan_bracket r 1 [])
  | _ =>
      let tok := p.takeWhile (fun c => ¬ c_isspace c ∧ c ≠ '#' ∧ c ≠ '[' ∧ c ≠ ']')
      if tok = [] then none
      else some (tok, p.drop tok.length)

/-- The raw-token loop of `bcl_parse_line` (its 256-token cap is not
modelled; no modelled script approaches it). -/
def raw_tokens : Nat → Str → List Str
  | 0, _ => []
  | fuel + 1, s =>
      match bcl_next_token s with
      | none => []
      | some (tok, rest) => tok :: raw_tokens fuel rest

/-- `is_comment`. -/
def is_comment (s : Str) : Bool :=
  match dropWs s with
  | '#' :: _ => true
  | _ => false

/-! ## Variable expansion (`bcl_expand_vars`, `bcl_parser.c` lines 210-297) -/

/-- Extract a parenthesized array index: characters up to the matching
`)` (consumed, not returned), honouring nesting. -/
def extract_paren_index : Str → Nat → Str → Str × Str
  | [], _, acc => (acc.reverse, [])
  | ')' :: r, depth, acc =>
      if depth = 1 then (acc.reverse, r)
      else extract_paren_index r (depth - 1) (')' :: acc)
  | '(' :: r, depth, acc => extract_paren_index r (depth + 1) ('(' :: acc)
  | c :: r, depth, acc => extract_paren_index r depth (c :: acc)

/-- `bcl_expand_vars`: replace `$name` and `$name(idx)` (index itself
recursively expanded) by the variable's value, unresolved names by the
empty string.  The fuel decreases on every step; callers pass
`s.length + 1`, which suffices since every step consumes at least one
character and the index recursion runs on a strict substring. -/
def bcl_expand_vars : Nat → bcl_interp_t → Str → Option Str
  | 0, _, _ => none
  | _ + 1, _, [] => some []
  | fuel + 1, st, '$' :: rest =>
      match rest with
      | [] => some ['$']
      | _ =>
          let name := rest.takeWhile (fun c => c_isalnum c || c = '_')
          let after := rest.drop name.length
          match after with
          | '(' :: r2 =>
              let (idx, r3) := extract_paren_index r2 1 []
              match bcl_expand_vars fuel st idx with
              | none => none
              | some idxExp =>
                  let full := name ++ '(' :: (idxExp ++ [')'])
                  let piece := (bcl_var_get st full).getD []
                  match bcl_expand_vars fuel st r3 with
                  | none => none
                  | some tl => some (piece ++ tl)
          | _ =>
              let piece := (bcl_var_get st name).getD []
              match bcl_expand_vars fuel st after with
              | none => none
              | some tl => some (piece ++ tl)
  | fuel + 1, st, c :: rest =>
      match bcl_expand_vars fuel st rest with
      | none => none
      | some tl => some (c :: tl)

/-! ## Simple commands (`bcl_commands.c`) -/

/-- The result triple of a command: signal, produced value (the C
out-parameter `*result`, `none` when left NULL), new state. -/
abbrev cmd_result := bcl_result_t × Option Str × bcl_interp_t

/-- `bcl_cmd_set` (`bcl_commands.c` lines 16-43). -/
def bcl_cmd_set (st : bcl_interp_t) (argv : List Str) : cmd_result :=
  match argv with
  | [name] =>
      match bcl_var_get st name with
      | none => (BCL_ERROR, none,
          bcl_set_error st (("can't read \"").data ++ name ++ ("\": no such variable").data))
      | some v => (BCL_OK, some v, st)
  | [name, value] => (BCL_OK, some value, bcl_var_set st name value)
  | _ => (BCL_ERROR, none,
      bcl_set_error st ("SET: wrong # args: should be \"SET varname ?value?\"").data)

/-- `bcl_cmd_unset`. -/
def bcl_cmd_unset (st : bcl_interp_t) (argv : List Str) : cmd_result :=
  match argv with
  | [name] => (BCL_OK, some [], bcl_var_unset st name)
  | _ => (BCL_ERROR, none,
      bcl_set_error st ("UNSET: wrong # args: should be \"UNSET varname\"").data)

/-- `bcl_cmd_incr` (`bcl_commands.c` lines 65-108). -/
def bcl_cmd_incr (st : bcl_interp_t) (argv : List Str) : cmd_result :=
  match argv with
  | [] => (BCL_ERROR, none,
      bcl_set_error st ("INCR: wrong # args: should be \"INCR varname ?increment?\"").data)
  | _ :: _ :: _ :: _ => (BCL_ERROR, none,
      bcl_set_error st ("INCR: wrong # args: should be \"INCR varname ?increment?\"").data)
  | name :: rest =>
      let incParsed : Option Rat :=
        match rest with
        | [] => some 1
        | incStr :: _ =>
            let (v, ok) := bcl_str_to_number incStr
            if ok then some v else none
      match incParsed with
      | none => (BCL_ERROR, none,
          bcl_set_error st (("expected integer but got \"").data ++ rest.headI ++ ("\"").data))
      | some inc =>
          let curParsed : Option Rat :=
            match bcl_var_get st name with
            | none => some 0
            | some s =>
                let (v, ok) := bcl_str_to_number s
                if ok then some v else none
          match curParsed with
          | none => (BCL_ERROR, none,
              bcl_set_error st (("expected integer but got \"").data ++
                ((bcl_var_get st name).getD []) ++ ("\"").data))
          | some current =>
              let buf := fmt0f (current + inc)
              (BCL_OK, some buf, bcl_var_set st name buf)

/-- `bcl_cmd_append` (`bcl_commands.c` lines 114-145). -/
def bcl_cmd_append (st : bcl_interp_t) (argv : List Str) : cmd_result :=
  match argv with
  | [] => (BCL_ERROR, none,
      bcl_set_error st ("APPEND: wrong # args: should be \"APPEND varname ?value ...?\"").data)
  | name :: vals =>
      let s := ((bcl_var_get st name).getD []) ++ vals.flatten
      (BCL_OK, some s, bcl_var_set st name s)

/-- `bcl_cmd_global` (`bcl_commands.c` lines 278-309): register each
name in the current scope's `global_refs` (with the `"1"` marker); a
no-op at global scope.  Note that it never touches `global_prefixes`. -/
def bcl_cmd_global (st : bcl_interp_t) (argv : List Str) : cmd_result :=
  match argv with
  | [] => (BCL_ERROR, none,
      bcl_set_error st ("GLOBAL: wrong # args: should be \"GLOBAL varName ?varName ...?\"").data)
  | _ =>
      match st.scope_stack with
      | [] => (BCL_OK, some [], st)
      | sc :: _ =>
          let refs := argv.foldl (fun t n => bcl_hash_set t n ['1']) sc.global_refs
          (BCL_OK, some [], set_current_scope st { sc with global_refs := refs })

/-- `bcl_cmd_break`. -/
def bcl_cmd_break (st : bcl_interp_t) (_argv : List Str) : cmd_result :=
  (BCL_BREAK, some [], st)

/-- `bcl_cmd_continue`. -/
def bcl_cmd_continue (st : bcl_interp_t) (_argv : List Str) : cmd_result :=
  (BCL_CONTINUE, some [], st)

/-- `bcl_cmd_return` (`bcl_commands.c` lines 343-373): arguments joined
with spaces become the pending return value. -/
def bcl_cmd_return (st : bcl_interp_t) (argv : List Str) : cmd_result :=
  let rv := match argv with
    | [] => ([] : Str)
    | _ => List.intercalate ([' ']) argv
  (BCL_RETURN, some rv, { st with return_value := some rv })

/-- `bcl_cmd_exit` (`bcl_commands.c` lines 256-272). -/
def bcl_cmd_exit (st : bcl_interp_t) (argv : List Str) : cmd_result :=
  match argv with
  | [] => (BCL_EXIT, some [], { st with exit_code := 0 })
  | a :: _ =>
      let (v, ok) := bcl_str_to_number a
      if ¬ ok then (BCL_ERROR, none,
        bcl_set_error st (("expected integer but got \"").data ++ a ++ ("\"").data))
      else (BCL_EXIT, some [], { st with exit_code := ratTrunc v })

/-- `eval_condition` (`bcl_control.c` lines 21-75): expand variables,
whitespace-tokenize, evaluate through `bcl_cmd_expr`, coerce to bool.
Unlike the block executor's `eval_block_condition`, no `[...]`
subcommand expansion happens here. -/
def eval_condition (st : bcl_interp_t) (cond : Str) : Option Bool :=
  if cond = [] then some false
  else
    match bcl_expand_vars (cond.length + 1) st cond with
    | none => none
    | some expanded =>
        let argv := splitWs expanded
        if argv = [] then some false
        else
          match bcl_cmd_expr st argv with
          | (BCL_OK, some v, _) => some (bcl_value_to_bool v)
          | _ => some false

/-- The inline-only stubs `bcl_cmd_while` / `bcl_cmd_for` /
`bcl_cmd_foreach` / `bcl_cmd_switch` (`bcl_control.c` lines 183-233):
dispatching these keywords as plain commands is always an error. -/
def bcl_cmd_loop_stub (kw : Str) (st : bcl_interp_t) (_argv : List Str) : cmd_result :=
  (BCL_ERROR, none,
    bcl_set_error st (kw ++ (": multi-line control structures not yet implemented").data))

/-! ## Block parser (`bcl_parse_blocks`, `bcl_block.c` lines 291-580)

The C parser mutates blocks in place and attaches every new block to its
parent at creation time; lines added later reach the parent through the
shared pointer.  The functional model keeps a stack of frames for the
open blocks and performs each attachment when the block is closed (by
`END`, by being displaced, or at end of input), which produces the same
tree.  An `ELSEIF`/`ELSE` chain is carried in the frame's `hosts` list
(innermost first): the C code pops the current top and attaches the new
block as its child, so when the chain finally closes every host gets its
child appended and the outermost host attaches to the stack below. -/

/-- `get_first_token` (`bcl_block.c` lines 158-179). -/
def get_first_token (line : Str) : Option Str :=
  let p := dropWs line
  let tok := p.takeWhile (fun c => ¬ c_isspace c)
  if tok = [] then none else some tok

/-- `line_contains_end` (`bcl_block.c` lines 185-207): some
whitespace-delimited token is exactly `END` (case-insensitive). -/
def line_contains_end (line : Str) : Bool :=
  (splitWs line).any (fun t => t.length = 3 && strEqCI t (("END").data))

/-- The THEN/DO scan of `extract_condition` (`bcl_block.c`
lines 230-251): characters up to the first whitespace that is followed
(after more whitespace) by a `THEN` or `DO` prefix. -/
def extract_cond_scan : Str → Str → Str
  | acc, [] => acc.reverse
  | acc, c :: r =>
      if c_isspace c ∧
         (startsWithCI (dropWs r) (("THEN").data) ∨ startsWithCI (dropWs r) (("DO").data)) then
        acc.reverse
      else extract_cond_scan (c :: acc) r

/-- `extract_condition` (`bcl_block.c` lines 212-282): text between the
keyword and the next whole-`THEN`/`DO`, right-trimmed; for `CASE` a
surrounding quote pair is stripped.  (Note: only `CASE` strips quotes —
a quoted `SWITCH` expression keeps them.) -/
def extract_condition (line kw : Str) : Option Str :=
  let p := dropWs line
  if ¬ startsWithCI p kw then none
  else
    let body := dropWs (p.drop kw.length)
    let cond := rtrimWs (extract_cond_scan [] body)
    if strEqCI kw (("CASE").data) ∧ 2 ≤ cond.length ∧
       ((cond.head? = some '"' ∧ cond.getLast? = some '"') ∨
        (cond.head? = some '\'' ∧ cond.getLast? = some '\'')) then
      some (cond.drop 1).dropLast
    else some cond

/-- `DO` as a whole word at the front of `s` (`bcl_block.c`
lines 493-494 etc.). -/
def is_do_boundary (s : Str) : Bool :=
  startsWithCI s (("DO").data) &&
  (match s.drop 2 with
   | [] => true
   | c :: _ => c_isspace c)

/-- The parameter scan of the `PROC` line (`bcl_block.c` lines 506-539):
characters up to the whitespace that precedes a whole-word `DO`; `none`
when no such `DO` exists (the C leaves `proc_params` NULL then). -/
def scan_params_to_do : Str → Str → Option Str
  | _, [] => none
  | acc, c :: r =>
      if c_isspace c ∧ is_do_boundary (dropWs r) then some acc.reverse
      else scan_params_to_do (c :: acc) r

/-- The name/params parse of a `PROC` line (`bcl_block.c`
lines 473-541). -/
def parse_proc_fields (line : Str) : Option Str × Option Str :=
  let p := dropWs line
  let p1 := dropWs (p.drop 4)
  let name := p1.takeWhile (fun c => ¬ c_isspace c)
  let pname := if name = [] then none else some name
  let p2 := dropWs (p1.drop name.length)
  if is_do_boundary p2 then (pname, none)
  else if startsWithCI p2 (("WITH").data) then
    let p3 := dropWs (p2.drop 4)
    if is_do_boundary p3 then (pname, none)
    else
      match scan_params_to_do [] p3 with
      | some ps => (pname, some (rtrimWs ps))
      | none => (pname, none)
  else (pname, none)

inductive attach_mode_t : Type where
  | as_item
  | as_child
  deriving DecidableEq, Repr

/-- An open block on the parser stack. -/
structure parse_frame_t : Type where
  blk : bcl_block
  hosts : List bcl_block
  attach : attach_mode_t

/-- Close a frame: fold the block into its ELSEIF/ELSE host chain. -/
def finish_frame (F : parse_frame_t) : bcl_block :=
  F.hosts.foldl (fun b h => h.addChild b) F.blk

/-- Parser state: the root block's accumulating items/children and the
stack of open frames (head = top).  The root is not a stack entry, so
the stack structurally cannot drop below it — mirroring the C guards
`if (stack_top > 0)`. -/
structure parser_state_t : Type where
  root_items : List block_item
  root_children : List bcl_block
  frames : List parse_frame_t

/-- Add a literal line to the current top (`block_add_line`). -/
def ps_add_line (ps : parser_state_t) (line : Str) : parser_state_t :=
  match ps.frames with
  | [] => { ps with root_items := ps.root_items ++ [.line line] }
  | F :: rest => { ps with frames := { F with blk := F.blk.addItem (.line line) } :: rest }

/-- Attach a closed block to the current top (or the root). -/
def ps_attach (ps : parser_state_t) (B : bcl_block) (m : attach_mode_t) : parser_state_t :=
  match ps.frames, m with
  | [], .as_item => { ps with root_items := ps.root_items ++ [.block B] }
  | [], .as_child => { ps with root_children := ps.root_children ++ [B] }
  | F :: rest, .as_item => { ps with frames := { F with blk := F.blk.addItem (.block B) } :: rest }
  | F :: rest, .as_child => { ps with frames := { F with blk := F.blk.addChild B } :: rest }

/-- Push a fresh frame. -/
def ps_push (ps : parser_state_t) (F : parse_frame_t) : parser_state_t :=
  { ps with frames := F :: ps.frames }

/-- A fresh frame for a new block. -/
def mk_frame (ty : block_type_t) (cond pname pparams : Option Str)
    (m : attach_mode_t) : parse_frame_t :=
  ⟨.mk ty cond pname pparams [] [], [], m⟩

/-- One line of `bcl_parse_blocks`'s main loop (`bcl_block.c`
lines 333-571). -/
def parse_step (ps : parser_state_t) (line : Str) : parser_state_t :=
  let p := dropWs line
  match p with
  | [] => ps
  | '#' :: _ => ps
  | _ =>
    match get_first_token p with
    | none => ps_add_line ps line
    | some tok =>
      if strEqCI tok (("IF").data) then
        if line_contains_end line then ps_add_line ps line
        else ps_push ps (mk_frame BLOCK_IF (extract_condition line (("IF").data)) none none .as_item)
      else if strEqCI tok (("ELSEIF").data) then
        match ps.frames with
        | [] => ps
        | F :: rest =>
            { ps with frames :=
                ⟨.mk BLOCK_ELSEIF (extract_condition line (("ELSEIF").data)) none none [] [],
                 F.blk :: F.hosts, F.attach⟩ :: rest }
      else if strEqCI tok (("ELSE").data) then
        match ps.frames with
        | [] => ps
        | F :: rest =>
            { ps with frames :=
                ⟨.mk BLOCK_ELSE none none none [] [], F.blk :: F.hosts, F.attach⟩ :: rest }
      else if strEqCI tok (("WHILE").data) then
        ps_push ps (mk_frame BLOCK_WHILE (extract_condition line (("WHILE").data)) none none .as_item)
      else if strEqCI tok (("FOR").data) then
        ps_push ps (mk_frame BLOCK_FOR (extract_condition line (("FOR").data)) none none .as_item)
      else if strEqCI tok (("FOREACH").data) then
        ps_push ps (mk_frame BLOCK_FOREACH (extract_condition line (("FOREACH").data)) none none .as_item)
      else if strEqCI tok (("SWITCH").data) then
        ps_push ps (mk_frame BLOCK_SWITCH (extract_condition line (("SWITCH").data)) none none .as_item)
      else if strEqCI tok (("CASE").data) then
        match ps.frames with
        | [] => ps
        | F :: rest =>
            let ps1 :=
              if F.blk.type = BLOCK_CASE ∨ F.blk.type = BLOCK_DEFAULT then
                ps_attach { ps with frames := rest } (finish_frame F) F.attach
              else ps
            ps_push ps1 (mk_frame BLOCK_CASE (extract_condition line (("CASE").data)) none none .as_child)
      else if strEqCI tok (("DEFAULT").data) then
        match ps.frames with
        | [] => ps
        | F :: rest =>
            let ps1 :=
              if F.blk.type = BLOCK_CASE then
                ps_attach { ps with frames := rest } (finish_frame F) F.attach
              else ps
            ps_push ps1 (mk_frame BLOCK_DEFAULT none none none .as_child)
      else if strEqCI tok (("PROC").data) then
        let (nm, pp) := parse_proc_fields line
        ps_push ps (mk_frame BLOCK_PROC none nm pp .as_item)
      else if strEqCI tok (("END").data) then
        match ps.frames with
        | [] => ps
        | F :: rest =>
            let ps1 := ps_attach { ps with frames := rest } (finish_frame F) F.attach
            if F.blk.type = BLOCK_CASE ∨ F.blk.type = BLOCK_DEFAULT then
              match ps1.frames with
              | [] => ps1
              | G :: rest2 =>
                  if G.blk.type = BLOCK_SWITCH then
                    ps_attach { ps1 with frames := rest2 } (finish_frame G) G.attach
                  else ps1
            else ps1
      else ps_add_line ps line

/-- End-of-input: close every still-open frame, bottom-most last
(reproducing the attach-at-creation result of the mutable C parser). -/
def finalize_frames : List parse_frame_t → List block_item → List bcl_block →
    List block_item × List bcl_block
  | [], ri, rc => (ri, rc)
  | F :: rest, ri, rc =>
      let B := finish_frame F
      match F.attach, rest with
      | .as_item, [] => (ri ++ [.block B], rc)
      | .as_child, [] => (ri, rc ++ [B])
      | .as_item, G :: rest' =>
          finalize_frames ({ G with blk := G.blk.addItem (.block B) } :: rest') ri rc
      | .as_child, G :: rest' =>
          finalize_frames ({ G with blk := G.blk.addChild B } :: rest') ri rc
termination_by l _ _ => l.length
decreasing_by all_goals simp

/-- `bcl_parse_blocks`: split into lines, run the stack machine, close
anything left open, return the root Sequence block. -/
def bcl_parse_blocks (code : Str) : bcl_block :=
  let ps := (splitLines code).foldl parse_step ⟨[], [], []⟩
  let pr := finalize_frames ps.frames ps.root_items ps.root_children
  .mk BLOCK_NONE none none none pr.1 pr.2

/-! ## Block executor and evaluation pipeline

(`bcl_eval.c`, `bcl_parser.c` line evaluation, `bcl_block.c` execution,
`bcl_interp.c` procedure calls.)  One mutual block, structurally
recursive on a fuel counter: every mutual call uses the predecessor, so
`none` only ever means "fuel exhausted". -/

/-- Space/tab split (`strtok_r(…, " \t", …)` of FOR conditions and PROC
parameter lists). -/
def splitSpTab (s : Str) : List Str :=
  ((s.splitOnP (fun c => c = ' ' || c = '\t')).filter (fun t => t ≠ []))

/-- Quote a substituted subcommand result that contains whitespace,
escaping embedded double quotes (`bcl_expand_subcommands`
lines 370-392). -/
def quote_result (s : Str) : Str :=
  if s.any (fun c => c_isspace c) then
    '"' :: ((s.flatMap (fun c => if c = '"' then ['\\', c] else [c])) ++ ['"'])
  else s

/-- Builtin commands of the dispatch table (`bcl_eval.c` lines 21-110)
whose bodies are out-of-scope leaf subsystems (I/O, lists, strings,
regex, files, system, events — spec section 1): dispatching them is
left undefined rather than mis-modelled; no verified claim reaches
them. -/
def unmodeled_builtins : List Str :=
  [("PUTS").data, ("PUTSN").data, ("GETS").data, ("ARRAY").data, ("BINARY").data,
   ("LIST").data, ("SPLIT").data, ("JOIN").data, ("LINDEX").data, ("LRANGE").data,
   ("LLENGTH").data, ("LAPPEND").data, ("LINSERT").data, ("LREPLACE").data,
   ("CONCAT").data, ("LSORT").data, ("LSEARCH").data, ("INFO").data, ("CLOCK").data,
   ("STRING").data, ("FORMAT").data, ("SCAN").data, ("REGEXP").data, ("REGSUB").data,
   ("OPEN").data, ("CLOSE").data, ("READ").data, ("TELL").data, ("SEEK").data,
   ("EOF").data, ("PWD").data, ("FILE").data, ("GLOB").data, ("EVAL").data,
   ("SOURCE").data, ("LOAD").data, ("ENV").data, ("ARGV").data, ("EXEC").data,
   ("AFTER").data, ("EVENT").data]

def is_unmodeled_builtin (name : Str) : Bool :=
  unmodeled_builtins.any (fun b => strEqCI b name)

/-- `FOR` condition parse `start TO end [STEP step]` (`bcl_block.c`
lines 749-772): whitespace-tokenized, `TO` case-insensitive, operands
through `atof`, step defaulting to 1 (also when the 4th token is not
`STEP` or the step operand is missing). -/
def parse_for_condition (cond : Str) : Option (Rat × Rat × Rat) :=
  match splitSpTab cond with
  | inicio :: to_kw :: fin :: rest =>
      if strEqCI to_kw (("TO").data) then
        let paso : Rat :=
          match rest with
          | step_kw :: rest2 =>
              if strEqCI step_kw (("STEP").data) then
                match rest2 with
                | p :: _ => atof p
                | [] => 1
              else 1
          | [] => 1
        some (atof inicio, atof fin, paso)
      else none
  | _ => none

/-- PROC parameter-list parse (`bcl_exec_block`'s `BLOCK_PROC` case,
`bcl_block.c` lines 917-954): space/tab tokens, `@` marks optional,
at most 32 parameters. -/
def parse_proc_params (pp : Option Str) : List bcl_param_t :=
  match pp with
  | none => []
  | some s =>
      ((splitSpTab s).filterMap (fun t =>
          if t.headI = '@' then
            (let nm := t.drop 1
             if nm = [] then none else some (⟨nm, true⟩ : bcl_param_t))
          else some (⟨t, false⟩ : bcl_param_t))).take 32

/-- The `BLOCK_PROC` case of `bcl_exec_block` (`bcl_block.c`
lines 908-987): defining, not running — the PROC block's items move
into a fresh Sequence owned by the registered procedure. -/
def exec_proc_define (st : bcl_interp_t) (b : bcl_block) : bcl_result_t × bcl_interp_t :=
  match b.proc_name with
  | none => (BCL_ERROR, bcl_set_error st (("PROC: missing procedure name").data))
  | some nm =>
      let body : bcl_block := .mk BLOCK_NONE none none none b.items []
      bcl_proc_define st nm (parse_proc_params b.proc_params) (some body)

/-- First `ELSEIF`/`ELSE` sibling (the false-branch scan of
`bcl_exec_block`, lines 710-718). -/
def first_elif_else (children : List bcl_block) : Option bcl_block :=
  children.find? (fun s => s.type = BLOCK_ELSEIF || s.type = BLOCK_ELSE)

mutual

/-- `bcl_expand_subcommands` (`bcl_parser.c` lines 325-411): substitute
every bracketed `[…]` subcommand (inner brackets expanded first) by its
evaluation result, quoted if it contains whitespace; an unterminated
`[` runs to end of input.  Interpreter state threads through because
subcommand evaluation has side effects. -/
def bcl_expand_subcommands : Nat → bcl_interp_t → Str → Option (Str × bcl_interp_t)
  | 0, _, _ => none
  | _ + 1, st, [] => some ([], st)
  | fuel + 1, st, '[' :: rest =>
      let (content, r2) := scan_bracket rest 1 []
      match bcl_expand_subcommands fuel st content with
      | none => none
      | some (expandedCmd, st1) =>
          match bcl_eval_subcommand fuel st1 expandedCmd with
          | none => none
          | some (cmdResult, st2) =>
              match bcl_expand_subcommands fuel st2 r2 with
              | none => none
              | some (tl, st3) => some (quote_result cmdResult ++ tl, st3)
  | fuel + 1, st, c :: rest =>
      match bcl_expand_subcommands fuel st rest with
      | none => none
      | some (tl, st1) => some (c :: tl, st1)
termination_by structural fuel _ _ => fuel

/-- `bcl_eval_subcommand` (`bcl_parser.c` lines 306-319): evaluate, keep
the result on `BCL_OK`, empty string on any other signal. -/
def bcl_eval_subcommand : Nat → bcl_interp_t → Str → Option (Str × bcl_interp_t)
  | 0, _, _ => none
  | fuel + 1, st, cmd =>
      match bcl_eval fuel st cmd with
      | none => none
      | some (res, val, st1) =>
          if res = BCL_OK then some (val, st1) else some ([], st1)
termination_by structural fuel _ _ => fuel

/-- `bcl_parse_line` (`bcl_parser.c` lines 424-495): comment lines yield
no tokens; otherwise expand `[…]` subcommands over the whole line,
split into raw tokens, then decode escapes and expand `$` variables per
token. -/
def bcl_parse_line : Nat → bcl_interp_t → Str → Option (List Str × bcl_interp_t)
  | 0, _, _ => none
  | fuel + 1, st, line =>
      if is_comment line then some ([], st)
      else
        match bcl_expand_subcommands fuel st line with
        | none => none
        | some (expanded, st1) =>
            let raw := raw_tokens (expanded.length + 1) expanded
            match raw.mapM (fun t =>
                let d := bcl_decode_escapes t
                bcl_expand_vars (d.length + 1) st1 d) with
            | none => none
            | some toks => some (toks, st1)
termination_by structural fuel _ _ => fuel

/-- The line loop of `bcl_eval` (`bcl_eval.c` lines 193-246), carrying
the last command result: any non-`BCL_OK` signal stops the loop and is
returned with the stopping command's result value. -/
def bcl_eval_lines : Nat → bcl_interp_t → List Str → Option Str →
    Option (bcl_result_t × Str × bcl_interp_t)
  | 0, _, _, _ => none
  | _ + 1, st, [], last => some (BCL_OK, last.getD [], st)
  | fuel + 1, st, line :: rest, last =>
      match bcl_parse_line fuel st line with
      | none => none
      | some ([], st1) => bcl_eval_lines fuel st1 rest last
      | some (cmd :: args, st1) =>
          match bcl_dispatch_command fuel st1 cmd args with
          | none => none
          | some (res, val, st2) =>
              if res = BCL_OK then bcl_eval_lines fuel st2 rest val
              else some (res, val.getD [], st2)
termination_by structural fuel _ _ _ => fuel

/-- `bcl_eval` (`bcl_eval.c` lines 179-258): the flat per-line
evaluator. -/
def bcl_eval : Nat → bcl_interp_t → Str → Option (bcl_result_t × Str × bcl_interp_t)
  | 0, _, _ => none
  | fuel + 1, st, code => bcl_eval_lines fuel st (splitLines code) none
termination_by structural fuel _ _ => fuel

/-- `bcl_dispatch_command` (`bcl_eval.c` lines 125-173): builtins first
(case-insensitive), then user procedures, then the (empty, unmodelled)
extension registry, else a DispatchError. -/
def bcl_dispatch_command : Nat → bcl_interp_t → Str → List Str → Option cmd_result
  | 0, _, _, _ => none
  | fuel + 1, st, name, args =>
      if strEqCI name (("SET").data) then some (bcl_cmd_set st args)
      else if strEqCI name (("UNSET").data) then some (bcl_cmd_unset st args)
      else if strEqCI name (("INCR").data) then some (bcl_cmd_incr st args)
      else if strEqCI name (("APPEND").data) then some (bcl_cmd_append st args)
      else if strEqCI name (("GLOBAL").data) then some (bcl_cmd_global st args)
      else if strEqCI name (("EXPR").data) then some (bcl_cmd_expr st args)
      else if strEqCI name (("IF").data) then bcl_cmd_if fuel st args
      else if strEqCI name (("WHILE").data) then some (bcl_cmd_loop_stub (("WHILE").data) st args)
      else if strEqCI name (("FOR").data) then some (bcl_cmd_loop_stub (("FOR").data) st args)
      else if strEqCI name (("FOREACH").data) then some (bcl_cmd_loop_stub (("FOREACH").data) st args)
      else if strEqCI name (("SWITCH").data) then some (bcl_cmd_loop_stub (("SWITCH").data) st args)
      else if strEqCI name (("BREAK").data) then some (bcl_cmd_break st args)
      else if strEqCI name (("CONTINUE").data) then some (bcl_cmd_continue st args)
      else if strEqCI name (("RETURN").data) then some (bcl_cmd_return st args)
      else if strEqCI name (("EXIT").data) then some (bcl_cmd_exit st args)
      else if is_unmodeled_builtin name then none
      else if bcl_proc_exists st name then bcl_proc_call fuel st name args
      else some (BCL_ERROR, none,
        bcl_set_error st ((("invalid command name \"").data ++ name ++ ("\"").data)))
termination_by structural fuel _ _ _ => fuel

/-- `bcl_cmd_if` (`bcl_control.c` lines 88-177): the inline single-line
form `IF cond THEN cmd [ELSE cmd] END`, its branch re-evaluated through
`bcl_eval`. -/
def bcl_cmd_if : Nat → bcl_interp_t → List Str → Option cmd_result
  | 0, _, _ => none
  | fuel + 1, st, argv =>
      if argv.length < 4 then
        some (BCL_ERROR, none, bcl_set_error st
          (("IF: wrong # args: should be \"IF condition THEN command [ELSE command] END\"").data))
      else
        match (argv.drop 1).findIdx? (fun a => strEqCI a (("THEN").data)) with
        | none => some (BCL_ERROR, none,
            bcl_set_error st (("IF: missing THEN keyword").data))
        | some i =>
            let then_idx := i + 1
            let condition := List.intercalate ([' ']) (argv.take then_idx)
            match eval_condition st condition with
            | none => none
            | some cond_result =>
                let after := argv.drop (then_idx + 1)
                match after.findIdx? (fun a => strEqCI a (("END").data)) with
                | none => some (BCL_ERROR, none,
                    bcl_set_error st (("IF: missing END keyword").data))
                | some jend =>
                    let end_idx := then_idx + 1 + jend
                    let else_idx? :=
                      ((after.take jend).findIdx? (fun a => strEqCI a (("ELSE").data))).map
                        (fun k => then_idx + 1 + k)
                    let branch? : Option (Nat × Nat) :=
                      if cond_result then
                        some (then_idx + 1, (else_idx?).getD end_idx)
                      else
                        match else_idx? with
                        | some e => some (e + 1, end_idx)
                        | none => none
                    match branch? with
                    | none => some (BCL_OK, none, st)
                    | some (cs, ce) =>
                        let cmd := List.intercalate ([' ']) ((argv.take ce).drop cs)
                        if cmd = [] then some (BCL_OK, none, st)
                        else
                          match bcl_eval fuel st cmd with
                          | none => none
                          | some (res, val, st2) => some (res, some val, st2)
termination_by structural fuel _ _ => fuel

/-- `bcl_proc_call` (`bcl_interp.c` lines 406-479): look up, check the
required-argument count (before any scope push), push a scope, bind
positionally, run the stored body, convert `Return` to `Ok` with the
pending value, pop the scope unconditionally. -/
def bcl_proc_call : Nat → bcl_interp_t → Str → List Str → Option cmd_result
  | 0, _, _, _ => none
  | fuel + 1, st, name, args =>
      match bcl_hash_get st.procedures name with
      | none => some (BCL_ERROR, none,
          bcl_set_error st ((("invalid command name \"").data ++ name ++ ("\"").data)))
      | some proc =>
          if args.length < required_param_count proc then
            some (BCL_ERROR, none,
              bcl_set_error st ((("wrong # args: should be \"").data ++ name ++ (" param ...\"").data)))
          else
            match bcl_scope_push st with
            | (BCL_ERROR, st1) => some (BCL_ERROR, none, st1)
            | (_, st1) =>
                let stBound := (List.zip proc.params args).foldl
                  (fun s pa => bcl_var_set s pa.1.name pa.2) st1
                match (match proc.body_block with
                       | none => some (BCL_OK, stBound)
                       | some body => bcl_exec_block fuel stBound body) with
                | none => none
                | some (res, stB) =>
                    let conv : bcl_result_t × Option Str × bcl_interp_t :=
                      if res = BCL_RETURN then
                        (BCL_OK, stB.return_value, { stB with return_value := none })
                      else (res, none, stB)
                    some (conv.1, some (conv.2.1.getD []), (bcl_scope_pop conv.2.2).2)
termination_by structural fuel _ _ _ => fuel

/-- `eval_block_condition` (`bcl_block.c` lines 589-644): expand `[…]`
subcommands, then `$` variables, whitespace-tokenize, evaluate through
`bcl_cmd_expr`, coerce to bool (false on empty or failed evaluation). -/
def eval_block_condition : Nat → bcl_interp_t → Option Str →
    Option (Bool × bcl_interp_t)
  | 0, _, _ => none
  | fuel + 1, st, cond =>
      let c := cond.getD []
      if c = [] then some (false, st)
      else
        match bcl_expand_subcommands fuel st c with
        | none => none
        | some (wc, st1) =>
            match bcl_expand_vars (wc.length + 1) st1 wc with
            | none => none
            | some expanded =>
                let argv := splitWs expanded
                if argv = [] then some (false, st1)
                else
                  match bcl_cmd_expr st1 argv with
                  | (BCL_OK, some v, st2) => some (bcl_value_to_bool v, st2)
                  | (_, _, st2) => some (false, st2)
termination_by structural fuel _ _ => fuel

/-- The items loop `exec_block_items` (`bcl_block.c` lines 649-684):
lines are tokenized and dispatched, nested blocks recurse; the first
non-`BCL_OK` signal stops the sequence and propagates unchanged. -/
def exec_block_items : Nat → bcl_interp_t → List block_item →
    Option (bcl_result_t × bcl_interp_t)
  | 0, _, _ => none
  | _ + 1, st, [] => some (BCL_OK, st)
  | fuel + 1, st, item :: rest =>
      match item with
      | .line l =>
          (match bcl_parse_line fuel st l with
           | none => none
           | some ([], st1) => exec_block_items fuel st1 rest
           | some (cmd :: args, st1) =>
               match bcl_dispatch_command fuel st1 cmd args with
               | none => none
               | some (res, _, st2) =>
                   if res = BCL_OK then exec_block_items fuel st2 rest
                   else some (res, st2))
      | .block sb =>
          match bcl_exec_block fuel st sb with
          | none => none
          | some (res, st1) =>
              if res = BCL_OK then exec_block_items fuel st1 rest
              else some (res, st1)
termination_by structural fuel _ _ => fuel

/-- The `BLOCK_WHILE` loop (`bcl_block.c` lines 726-739): while the
condition holds run the items; `Break` → `Ok` stop, `Continue`/`Ok` →
re-check, anything else propagates; a false condition returns `Ok`. -/
def exec_while : Nat → bcl_interp_t → bcl_block → Option (bcl_result_t × bcl_interp_t)
  | 0, _, _ => none
  | fuel + 1, st, b =>
      match eval_block_condition fuel st b.condition with
      | none => none
      | some (false, st1) => some (BCL_OK, st1)
      | some (true, st1) =>
          match exec_block_items fuel st1 b.items with
          | none => none
          | some (res, st2) =>
              if res = BCL_BREAK then some (BCL_OK, st2)
              else if res = BCL_CONTINUE ∨ res = BCL_OK then exec_while fuel st2 b
              else some (res, st2)
termination_by structural fuel _ _ => fuel

/-- The `BLOCK_FOR` loop body (`bcl_block.c` lines 776-800): iterate
while `(step>0 ∧ i≤end) ∨ (step<0 ∧ i≥end)`, each iteration binding the
reserved counter `__FOR` (integral values rendered without a decimal
point) before running the items; Break/Continue/propagation as in
While. -/
def exec_for_loop : Nat → bcl_interp_t → bcl_block → Rat → Rat → Rat →
    Option (bcl_result_t × bcl_interp_t)
  | 0, _, _, _, _, _ => none
  | fuel + 1, st, b, i, fin, paso =>
      if (0 < paso ∧ i ≤ fin) ∨ (paso < 0 ∧ fin ≤ i) then
        let stV := bcl_var_set st (("__FOR").data) (fmt_num i)
        match exec_block_items fuel stV b.items with
        | none => none
        | some (res, st2) =>
            if res = BCL_BREAK then some (BCL_OK, st2)
            else if res = BCL_CONTINUE ∨ res = BCL_OK then
              exec_for_loop fuel st2 b (i + paso) fin paso
            else some (res, st2)
      else some (BCL_OK, st)
termination_by structural fuel _ _ _ _ _ => fuel

/-- The `BLOCK_SWITCH` child scan (`bcl_block.c` lines 1001-1027):
children in order; a `Case` whose variable-substituted label equals the
switch value exactly (case-sensitive `strcmp`) runs and returns; a
`Default` reached first runs and returns; no hit is `Ok`. -/
def exec_switch_children : Nat → bcl_interp_t → Str → List bcl_block →
    Option (bcl_result_t × bcl_interp_t)
  | 0, _, _, _ => none
  | _ + 1, st, _, [] => some (BCL_OK, st)
  | fuel + 1, st, v, c :: rest =>
      if c.type = BLOCK_CASE then
        match bcl_expand_vars ((c.condition.getD []).length + 1) st (c.condition.getD []) with
        | none => none
        | some cv =>
            if v = cv then exec_block_items fuel st c.items
            else exec_switch_children fuel st v rest
      else if c.type = BLOCK_DEFAULT then exec_block_items fuel st c.items
      else exec_switch_children fuel st v rest
termination_by structural fuel _ _ _ => fuel

/-- `bcl_exec_block` (`bcl_block.c` lines 689-1040).  `BLOCK_FOREACH`
execution is not modelled (none of the verified claims reaches it; its
`strtok_r`-remainder list semantics is left undefined rather than
approximated). -/
def bcl_exec_block : Nat → bcl_interp_t → bcl_block → Option (bcl_result_t × bcl_interp_t)
  | 0, _, _ => none
  | fuel + 1, st, b =>
      match b.type with
      | BLOCK_NONE => exec_block_items fuel st b.items
      | BLOCK_IF =>
          (match eval_block_condition fuel st b.condition with
           | none => none
           | some (true, st1) => exec_block_items fuel st1 b.items
           | some (false, st1) =>
               match first_elif_else b.children with
               | some sib => bcl_exec_block fuel st1 sib
               | none => some (BCL_OK, st1))
      | BLOCK_ELSEIF =>
          (match eval_block_condition fuel st b.condition with
           | none => none
           | some (true, st1) => exec_block_items fuel st1 b.items
           | some (false, st1) =>
               match first_elif_else b.children with
               | some sib => bcl_exec_block fuel st1 sib
               | none => some (BCL_OK, st1))
      | BLOCK_ELSE => exec_block_items fuel st b.items
      | BLOCK_WHILE => exec_while fuel st b
      | BLOCK_FOR =>
          (match b.condition with
           | none => some (BCL_ERROR, bcl_set_error st (("FOR: missing condition").data))
           | some cond =>
               match parse_for_condition cond with
               | none => some (BCL_ERROR, bcl_set_error st
                   (("FOR: invalid syntax, expected 'inicio TO fin [STEP paso]'").data))
               | some (inicio, fin, paso) => exec_for_loop fuel st b inicio fin paso)
      | BLOCK_FOREACH => none
      | BLOCK_PROC => some (exec_proc_define st b)
      | BLOCK_SWITCH =>
          (match b.condition with
           | none => some (BCL_ERROR, bcl_set_error st (("SWITCH: missing expression").data))
           | some cond =>
               match bcl_expand_vars (cond.length + 1) st cond with
               | none => none
               | some sv => exec_switch_children fuel st sv b.children)
      | BLOCK_CASE => some (BCL_ERROR, bcl_set_error st (("Block type not yet implemented").data))
      | BLOCK_DEFAULT => some (BCL_ERROR, bcl_set_error st (("Block type not yet implemented").data))
termination_by structural fuel _ _ => fuel

end

/-- `bcl_eval_structured` (`bcl_eval.c` lines 264-281): parse the whole
script into a block tree and execute it. -/
def bcl_eval_structured (fuel : Nat) (st : bcl_interp_t) (code : Str) :
    Option (bcl_result_t × bcl_interp_t) :=
  bcl_exec_block fuel st (bcl_parse_blocks code)

/-- The interpreter's initial state (`bcl_interp_create`). -/
def bcl_interp_create : bcl_interp_t := ⟨[], [], [], none, [], 0⟩

/-! ## Concrete programs, blocks and states referenced by the claim
theorems and their witnesses -/

/-- C1's example program: define `double`, call it through a `[…]`
subcommand with `"21"`. -/
def c1_script : Str :=
  ("PROC double WITH x DO\nRETURN [EXPR $x * 2]\nEND\nSET R [double 21]").data

/-- The body Sequence the PROC definition above registers. -/
def c1_proc_body : bcl_block :=
  .mk BLOCK_NONE none none none [.line (("RETURN [EXPR $x * 2]").data)] []

/-- The registered `double` procedure. -/
def c1_proc : bcl_procedure_t :=
  ⟨("double").data, [⟨("x").data, false⟩], some c1_proc_body⟩

/-- Interpreter state with `double` defined, as it is just before the
call. -/
def c1_call_state : bcl_interp_t := ⟨[], [(("double").data, c1_proc)], [], none, [], 0⟩

/-- The state `double`'s body exits with on input `"21"`: the pushed
scope holds `x = "21"` and the pending return value is `"42"`. -/
def c1_body_exit_state : bcl_interp_t :=
  ⟨[], [(("double").data, c1_proc)], [⟨[(("x").data, ("21").data)], [], []⟩],
   some (("42").data), [], 0⟩

/-- C2's example program. -/
def c2_script : Str :=
  ("SET I 0\nWHILE $I < 1000000 DO\nINCR I\nIF $I == 3 THEN BREAK END\nEND").data

/-- A While block whose body issues `BREAK` (C2 witness). -/
def c2_blk_break : bcl_block :=
  .mk BLOCK_WHILE (some ['1']) none none [.line (("BREAK").data)] []

/-- A While block whose body issues `CONTINUE` (C2 witness). -/
def c2_blk_cont : bcl_block :=
  .mk BLOCK_WHILE (some ['1']) none none [.line (("CONTINUE").data)] []

/-- A While block whose body issues `RETURN` (C2 witness). -/
def c2_blk_ret : bcl_block :=
  .mk BLOCK_WHILE (some ['1']) none none [.line (("RETURN").data)] []

/-- A While block with a false condition (C2 witness). -/
def c2_blk_false : bcl_block :=
  .mk BLOCK_WHILE (some ['0']) none none [.line (("BREAK").data)] []

/-- C3's example program, exactly as the claim states it (quoted switch
expression). -/
def c3_script_quoted : Str :=
  ("SWITCH \"b\" DO\nCASE \"a\"\nSET X a-ran\nCASE \"b\"\nSET X b-ran\nDEFAULT\nSET X d-ran\nEND").data

/-- The same switch driven by a variable holding `b` (so the substituted
switch value carries no quotes). -/
def c3_script_var : Str :=
  ("SET V b\nSWITCH $V DO\nCASE \"a\"\nSET X a-ran\nCASE \"b\"\nSET X b-ran\nDEFAULT\nSET X d-ran\nEND").data

/-- C4's ascending example, tracing the counter into `L`. -/
def c4_script_up : Str :=
  ("SET L \"\"\nFOR 1 TO 5 STEP 2 DO\nAPPEND L < $__FOR >\nEND").data

/-- C4's descending example. -/
def c4_script_down : Str :=
  ("SET L \"\"\nFOR 5 TO 1 STEP -1 DO\nAPPEND L < $__FOR >\nEND").data

/-- A For block with literal step 0 (C10 witness). -/
def c10_for_blk : bcl_block :=
  .mk BLOCK_FOR (some (("1 TO 5 STEP 0").data)) none none [.line (("BREAK").data)] []

/-- A procedure with one required parameter and no body (C5 witness). -/
def c5_proc : bcl_procedure_t := ⟨("p").data, [⟨("a").data, false⟩], none⟩

/-- State with `c5_proc` registered. -/
def c5_state : bcl_interp_t := ⟨[], [(("p").data, c5_proc)], [], none, [], 0⟩

/-- C6's example program: a GLOBAL-declared scalar mutated inside a
procedure. -/
def c6_script : Str :=
  ("PROC setg DO\nGLOBAL G\nSET G inside\nEND\nsetg").data

/-- The container-prefix variant: `GLOBAL A(` followed by a write to the
element `A(1)` inside the procedure. -/
def c6_prefix_script : Str :=
  ("PROC setp DO\nGLOBAL A(\nSET A(1) inside\nEND\nsetp").data

/-- A scope whose `global_refs` holds the container prefix `A(` — what
`GLOBAL A(` produces (C6). -/
def c6_scope : bcl_scope_t := ⟨[], [((("A(").data), ['1'])], []⟩

/-- Nested If blocks with condition `1`: `nestedIf n` is an If block
containing `nestedIf (n-1)` as its only item, `n+1` levels deep in all —
executing it consumes one C stack frame of `bcl_exec_block` (plus its
helpers) per level (C9). -/
def nestedIf : Nat → bcl_block
  | 0 => .mk BLOCK_IF (some ['1']) none none [] []
  | n + 1 => .mk BLOCK_IF (some ['1']) none none [.block (nestedIf n)] []

/-- A state already holding `BCL_MAX_SCOPE_DEPTH` scopes (C9 witness). -/
def full_scope_state : bcl_interp_t :=
  ⟨[], [], List.replicate BCL_MAX_SCOPE_DEPTH scope_create, none, [], 0⟩

/-- C8: a script whose `WHILE` is never closed. -/
def c8_unclosed_script : Str := ("WHILE 1 DO\nSET X 1").data

/-- C8: `END` after a `CASE` also closes the enclosing `SWITCH`, so the
following line lands at the root. -/
def c8_switch_script : Str := ("SWITCH x DO\nCASE a\nSET Y 1\nEND\nSET Z 2").data

/-- A For block with condition `1 TO 5 STEP 2` and an empty body (C4
witness). -/
def c4_empty_for : bcl_block :=
  .mk BLOCK_FOR (some (("1 TO 5 STEP 2").data)) none none [] []

/-- The parsed `CASE "a"` block of the C3 switch. -/
def c3_case_a : bcl_block :=
  .mk BLOCK_CASE (some ['a']) none none [.line (("SET X a-ran").data)] []

/-- The parsed `CASE "b"` block of the C3 switch. -/
def c3_case_b : bcl_block :=
  .mk BLOCK_CASE (some ['b']) none none [.line (("SET X b-ran").data)] []

/-- The parsed `DEFAULT` block of the C3 switch. -/
def c3_default : bcl_block :=
  .mk BLOCK_DEFAULT none none none [.line (("SET X d-ran").data)] []

/-- A switch block over the unquoted value `b` (C3 witness). -/
def c3_switch_blk : bcl_block :=
  .mk BLOCK_SWITCH (some ['b']) none none [] [c3_case_a, c3_case_b, c3_default]

/-- A scope with `G` registered via GLOBAL (C6 witness). -/
def c6_refs_scope : bcl_scope_t := ⟨[], [(("G").data, ['1'])], []⟩

/-- A state whose single local scope is `c6_refs_scope` (C6 witness). -/
def c6_refs_state : bcl_interp_t := ⟨[], [], [c6_refs_scope], none, [], 0⟩

/-! # Claim theorems -/

/-- C1: a procedure call whose body execution yields the `Return` signal
returns `Ok` with the carried value as the call's result, and the
procedure's local scope is discarded.  First conjunct: whenever the
stored body, run from the entry state (scope pushed, parameters bound),
yields `BCL_RETURN`, `bcl_proc_call` returns `BCL_OK` carrying the
pending return value, with the pushed scope popped and the pending
value cleared.  Second conjunct: the spec's example — defining `double`
and calling it with `"21"` through a subcommand yields `R = "42"`,
leaves no binding for the local `x`, and ends with an empty scope
stack. -/
theorem C1_return_converts_to_ok :
    (∀ (fuel : Nat) (st st' : bcl_interp_t) (name : Str) (args : List Str)
       (proc : bcl_procedure_t) (body : bcl_block) (sc : bcl_scope_t)
       (rest : List bcl_scope_t),
       bcl_hash_get st.procedures name = some proc →
       required_param_count proc ≤ args.length →
       st.scope_stack.length < BCL_MAX_SCOPE_DEPTH →
       proc.body_block = some body →
       bcl_exec_block fuel (proc_entry_state st proc args) body = some (BCL_RETURN, st') →
       st'.scope_stack = sc :: rest →
       bcl_proc_call (fuel + 1) st name args
         = some (BCL_OK, some ((st'.return_value).getD []),
             { st' with return_value := none, scope_stack := rest }))
    ∧ (bcl_eval_structured 64 bcl_interp_create c1_script).map
        (fun p => (p.1, bcl_hash_get p.2.global_vars (("R").data),
                   bcl_hash_get p.2.global_vars (("x").data), p.2.scope_stack.length))
        = some (BCL_OK, some (("42").data), none, 0) := by
  refine ⟨?_, by with_unfolding_all rfl⟩
  intro fuel st st' name args proc body sc rest hl hreq hd hb hex hss
  rw [bcl_proc_call]
  simp only [hl]
  rw [if_neg (Nat.not_lt.mpr hreq)]
  have hpush : bcl_scope_push st
      = (BCL_OK, { st with scope_stack := scope_create :: st.scope_stack }) := by
    rw [bcl_scope_push, if_neg (Nat.not_le.mpr hd)]
  simp only [hpush]
  have hbound : List.foldl (fun s pa => bcl_var_set s pa.1.name pa.2)
      { st with scope_stack := scope_create :: st.scope_stack }
      (proc.params.zip args)
      = proc_entry_state st proc args := rfl
  simp only [hbound, hb, hex]
  simp [bcl_scope_pop, hss]

/-- C1 witness: the general conjunct applied to the `double` procedure
called with `"21"`. -/
theorem C1_witness :
    bcl_hash_get c1_call_state.procedures (("double").data) = some c1_proc
    ∧ required_param_count c1_proc ≤ [("21").data].length
    ∧ c1_call_state.scope_stack.length < BCL_MAX_SCOPE_DEPTH
    ∧ c1_proc.body_block = some c1_proc_body
    ∧ bcl_exec_block 30 (proc_entry_state c1_call_state c1_proc [("21").data]) c1_proc_body
        = some (BCL_RETURN, c1_body_exit_state)
    ∧ c1_body_exit_state.scope_stack = ⟨[(("x").data, ("21").data)], [], []⟩ :: []
    ∧ bcl_proc_call (30 + 1) c1_call_state (("double").data) [("21").data]
        = some (BCL_OK, some ((c1_body_exit_state.return_value).getD []),
            { c1_body_exit_state with return_value := none, scope_stack := [] }) :=
  ⟨by with_unfolding_all rfl, by decide, by decide, rfl, by with_unfolding_all rfl, rfl,
   C1_return_converts_to_ok.1 30 c1_call_state c1_body_exit_state (("double").data)
     [("21").data] c1_proc c1_proc_body ⟨[(("x").data, ("21").data)], [], []⟩ []
     (by with_unfolding_all rfl) (by decide) (by decide) rfl
     (by with_unfolding_all rfl) rfl⟩

/-- C2: While semantics.  Conjuncts: executing a While block is the
While loop; a true condition followed by a `Break` body stops the loop
with `Ok`; a `Continue` body re-checks the condition (the loop simply
recurses); any other non-Ok body signal propagates unchanged; a false
condition yields `Ok`.  Final conjunct: the spec's example — `SET I 0`,
then a `WHILE $I < 1000000` loop that increments `I` and breaks at
`$I == 3`, terminates with `I = "3"`. -/
theorem C2_while_semantics :
    (∀ (fuel : Nat) (st : bcl_interp_t) (b : bcl_block), b.type = BLOCK_WHILE →
        bcl_exec_block (fuel + 1) st b = exec_while fuel st b)
    ∧ (∀ (fuel : Nat) (st st1 st2 : bcl_interp_t) (b : bcl_block),
        eval_block_condition fuel st b.condition = some (true, st1) →
        exec_block_items fuel st1 b.items = some (BCL_BREAK, st2) →
        exec_while (fuel + 1) st b = some (BCL_OK, st2))
    ∧ (∀ (fuel : Nat) (st st1 st2 : bcl_interp_t) (b : bcl_block),
        eval_block_condition fuel st b.condition = some (true, st1) →
        exec_block_items fuel st1 b.items = some (BCL_CONTINUE, st2) →
        exec_while (fuel + 1) st b = exec_while fuel st2 b)
    ∧ (∀ (fuel : Nat) (st st1 st2 : bcl_interp_t) (b : bcl_block) (res : bcl_result_t),
        eval_block_condition fuel st b.condition = some (true, st1) →
        exec_block_items fuel st1 b.items = some (res, st2) →
        res ≠ BCL_OK → res ≠ BCL_BREAK → res ≠ BCL_CONTINUE →
        exec_while (fuel + 1) st b = some (res, st2))
    ∧ (∀ (fuel : Nat) (st st1 : bcl_interp_t) (b : bcl_block),
        eval_block_condition fuel st b.condition = some (false, st1) →
        exec_while (fuel + 1) st b = some (BCL_OK, st1))
    ∧ (bcl_eval_structured 64 bcl_interp_create c2_script).map
        (fun p => (p.1, bcl_hash_get p.2.global_vars (("I").data)))
        = some (BCL_OK, some (("3").data)) := by
  refine ⟨?_, ?_, ?_, ?_, ?_, by with_unfolding_all rfl⟩
  · intro fuel st b hty
    rw [bcl_exec_block, hty]
  · intro fuel st st1 st2 b hc hi
    rw [exec_while, hc]
    simp [hi]
  · intro fuel st st1 st2 b hc hi
    rw [exec_while, hc]
    simp [hi]
  · intro fuel st st1 st2 b res hc hi h1 h2 h3
    rw [exec_while, hc]
    simp [hi, h1, h2, h3]
  · intro fuel st st1 b hc
    rw [exec_while, hc]

/-- C2 witness: the While conjuncts applied to concrete one-line-body
While blocks (`BREAK`, `CONTINUE`, `RETURN` bodies and a false
condition). -/
theorem C2_witness :
    eval_block_condition 20 bcl_interp_create c2_blk_break.condition
      = some (true, bcl_interp_create)
    ∧ exec_block_items 20 bcl_interp_create c2_blk_break.items
      = some (BCL_BREAK, bcl_interp_create)
    ∧ exec_while (20 + 1) bcl_interp_create c2_blk_break = some (BCL_OK, bcl_interp_create)
    ∧ exec_while (20 + 1) bcl_interp_create c2_blk_cont
      = exec_while 20 bcl_interp_create c2_blk_cont
    ∧ exec_while (20 + 1) bcl_interp_create c2_blk_ret
      = some (BCL_RETURN, { bcl_interp_create with return_value := some [] })
    ∧ exec_while (20 + 1) bcl_interp_create c2_blk_false = some (BCL_OK, bcl_interp_create)
    ∧ bcl_exec_block (21 + 1) bcl_interp_create c2_blk_break
      = some (BCL_OK, bcl_interp_create) :=
  ⟨by with_unfolding_all rfl, by with_unfolding_all rfl,
   C2_while_semantics.2.1 20 bcl_interp_create bcl_interp_create bcl_interp_create c2_blk_break
     (by with_unfolding_all rfl) (by with_unfolding_all rfl),
   C2_while_semantics.2.2.1 20 bcl_interp_create bcl_interp_create bcl_interp_create c2_blk_cont
     (by with_unfolding_all rfl) (by with_unfolding_all rfl),
   C2_while_semantics.2.2.2.1 20 bcl_interp_create bcl_interp_create
     { bcl_interp_create with return_value := some [] } c2_blk_ret BCL_RETURN
     (by with_unfolding_all rfl) (by with_unfolding_all rfl) (by decide) (by decide) (by decide),
   C2_while_semantics.2.2.2.2.1 20 bcl_interp_create bcl_interp_create c2_blk_false
     (by with_unfolding_all rfl),
   by
     rw [C2_while_semantics.1 21 bcl_interp_create c2_blk_break rfl]
     exact C2_while_semantics.2.1 20 bcl_interp_create bcl_interp_create bcl_interp_create
       c2_blk_break (by with_unfolding_all rfl) (by with_unfolding_all rfl)⟩

/-- C3 counterexample: running the claim's own example,
`SWITCH "b" DO CASE "a" … CASE "b" … DEFAULT … END`, executes the
DEFAULT branch (`X = "d-ran"`), not the `"b"` branch (`X = "b-ran"`):
`extract_condition` strips surrounding quotes from CASE labels only, so
the switch value keeps its quotes (`"b"`, with quote characters) and
matches no case. -/
theorem C3_counterexample :
    (bcl_eval_structured 64 bcl_interp_create c3_script_quoted).map
      (fun p => (p.1, bcl_hash_get p.2.global_vars (("X").data)))
      = some (BCL_OK, some (("d-ran").data))
    ∧ ("d-ran").data ≠ ("b-ran").data :=
  ⟨by with_unfolding_all rfl, by decide⟩

/-- C3 (amended): the switch expression is evaluated once with variable
substitution only — but its quotes are not stripped (only CASE labels
are unquoted), so a quoted switch expression matches no case.
Conjuncts: switch execution substitutes the expression once and scans
the children; a Case child whose substituted label equals the value
runs its items; a prefix of non-matching Cases is skipped; a Default
child, when reached, runs its items; no remaining child yields `Ok`;
and the example rewritten with an unquoted switch value (`SWITCH $V`
with `V = b`) executes only the `"b"` branch. -/
theorem C3_switch_semantics :
    (∀ (fuel : Nat) (st : bcl_interp_t) (b : bcl_block) (cond sv : Str),
        b.type = BLOCK_SWITCH → b.condition = some cond →
        bcl_expand_vars (cond.length + 1) st cond = some sv →
        bcl_exec_block (fuel + 1) st b = exec_switch_children fuel st sv b.children)
    ∧ (∀ (fuel : Nat) (st : bcl_interp_t) (v : Str) (c : bcl_block) (rest : List bcl_block),
        c.type = BLOCK_CASE →
        bcl_expand_vars ((c.condition.getD []).length + 1) st (c.condition.getD []) = some v →
        exec_switch_children (fuel + 1) st v (c :: rest) = exec_block_items fuel st c.items)
    ∧ (∀ (pre : List bcl_block) (fuel : Nat) (st : bcl_interp_t) (v : Str)
          (rest : List bcl_block),
        (∀ p ∈ pre, p.type = BLOCK_CASE ∧ ∃ l,
          bcl_expand_vars ((p.condition.getD []).length + 1) st (p.condition.getD []) = some l
          ∧ l ≠ v) →
        exec_switch_children (fuel + pre.length) st v (pre ++ rest)
          = exec_switch_children fuel st v rest)
    ∧ (∀ (fuel : Nat) (st : bcl_interp_t) (v : Str) (c : bcl_block) (rest : List bcl_block),
        c.type = BLOCK_DEFAULT →
        exec_switch_children (fuel + 1) st v (c :: rest) = exec_block_items fuel st c.items)
    ∧ (∀ (fuel : Nat) (st : bcl_interp_t) (v : Str),
        exec_switch_children (fuel + 1) st v [] = some (BCL_OK, st))
    ∧ (bcl_eval_structured 64 bcl_interp_create c3_script_var).map
        (fun p => (p.1, bcl_hash_get p.2.global_vars (("X").data)))
        = some (BCL_OK, some (("b-ran").data)) := by
  refine ⟨?_, ?_, ?_, ?_, fun fuel st v => rfl, by with_unfolding_all rfl⟩
  · intro fuel st b cond sv hty hc hv
    rw [bcl_exec_block, hty, hc]
    simp only [hv]
  · intro fuel st v c rest hty hv
    rw [exec_switch_children]
    simp [hty, hv]
  · intro pre
    induction pre with
    | nil => intro fuel st v rest _; simp
    | cons p pre' ih =>
        intro fuel st v rest h
        obtain ⟨hty, l, hl, hne⟩ := h p (List.mem_cons_self p pre')
        have hlen : fuel + (p :: pre').length = (fuel + pre'.length) + 1 := by
          simp [List.length_cons]; omega
        rw [hlen, List.cons_append, exec_switch_children]
        simp only [hty, if_true, reduceIte, hl]
        rw [if_neg (Ne.symm hne)]
        exact ih fuel st v rest (fun q hq => h q (List.mem_cons_of_mem p hq))
  · intro fuel st v c rest hty
    rw [exec_switch_children]
    have : (c.type = BLOCK_CASE) = False := by simp [hty]
    simp [this, hty]

/-- C3 witness: the amended conjuncts applied to the concrete unquoted
switch (`b` over CASE `a`, CASE `b`, DEFAULT). -/
theorem C3_witness :
    bcl_exec_block (10 + 1) bcl_interp_create c3_switch_blk
      = exec_switch_children 10 bcl_interp_create ['b'] c3_switch_blk.children
    ∧ exec_switch_children (10 + [c3_case_a].length) bcl_interp_create ['b']
        ([c3_case_a] ++ [c3_case_b, c3_default])
      = exec_switch_children 10 bcl_interp_create ['b'] [c3_case_b, c3_default]
    ∧ exec_switch_children (10 + 1) bcl_interp_create ['b'] [c3_case_b, c3_default]
      = exec_block_items 10 bcl_interp_create c3_case_b.items
    ∧ exec_switch_children (10 + 1) bcl_interp_create ['b'] [c3_default]
      = exec_block_items 10 bcl_interp_create c3_default.items :=
  ⟨C3_switch_semantics.1 10 bcl_interp_create c3_switch_blk ['b'] ['b'] rfl rfl
     (by with_unfolding_all rfl),
   C3_switch_semantics.2.2.1 [c3_case_a] 10 bcl_interp_create ['b'] [c3_case_b, c3_default]
     (by
       intro p hp
       rw [List.mem_singleton] at hp
       subst hp
       exact ⟨rfl, ['a'], by with_unfolding_all rfl, by decide⟩),
   C3_switch_semantics.2.1 10 bcl_interp_create ['b'] c3_case_b [c3_default] rfl
     (by with_unfolding_all rfl),
   C3_switch_semantics.2.2.2.1 10 bcl_interp_create ['b'] c3_default [] rfl⟩

/-- C4: For semantics.  Conjuncts: `1 TO 5 STEP 2` parses to
(1, 5, 2) and `1 TO 5` defaults the step to 1; executing a For block
runs the loop from the parsed bounds; the loop stops with `Ok` when
`(step>0 ∧ i≤end) ∨ (step<0 ∧ i≥end)` fails; one iteration binds the
reserved counter `__FOR` (via `fmt_num`) before the body and advances
`i` by the step; integral counters render without a decimal point; and
the spec's examples — `FOR 1 TO 5 STEP 2` traces `<1><3><5>` (three
iterations) and `FOR 5 TO 1 STEP -1` traces `<5><4><3><2><1>`. -/
theorem C4_for_semantics :
    parse_for_condition (("1 TO 5 STEP 2").data) = some (1, 5, 2)
    ∧ parse_for_condition (("1 TO 5").data) = some (1, 5, 1)
    ∧ (∀ (fuel : Nat) (st : bcl_interp_t) (b : bcl_block) (cond : Str) (i0 fin paso : Rat),
        b.type = BLOCK_FOR → b.condition = some cond →
        parse_for_condition cond = some (i0, fin, paso) →
        bcl_exec_block (fuel + 1) st b = exec_for_loop fuel st b i0 fin paso)
    ∧ (∀ (fuel : Nat) (st : bcl_interp_t) (b : bcl_block) (i fin paso : Rat),
        ¬ ((0 < paso ∧ i ≤ fin) ∨ (paso < 0 ∧ fin ≤ i)) →
        exec_for_loop (fuel + 1) st b i fin paso = some (BCL_OK, st))
    ∧ (∀ (fuel : Nat) (st st2 : bcl_interp_t) (b : bcl_block) (i fin paso : Rat),
        ((0 < paso ∧ i ≤ fin) ∨ (paso < 0 ∧ fin ≤ i)) →
        exec_block_items fuel (bcl_var_set st (("__FOR").data) (fmt_num i)) b.items
          = some (BCL_OK, st2) →
        exec_for_loop (fuel + 1) st b i fin paso = exec_for_loop fuel st2 b (i + paso) fin paso)
    ∧ (∀ n : Int, fmt_num (n : Rat) = intToStr n)
    ∧ (bcl_eval_structured 64 bcl_interp_create c4_script_up).map
        (fun p => (p.1, bcl_hash_get p.2.global_vars (("L").data)))
        = some (BCL_OK, some (("<1><3><5>").data))
    ∧ (bcl_eval_structured 64 bcl_interp_create c4_script_down).map
        (fun p => (p.1, bcl_hash_get p.2.global_vars (("L").data)))
        = some (BCL_OK, some (("<5><4><3><2><1>").data)) := by
  refine ⟨by with_unfolding_all rfl, by with_unfolding_all rfl, ?_, ?_, ?_, ?_,
    by with_unfolding_all rfl, by with_unfolding_all rfl⟩
  · intro fuel st b cond i0 fin paso hty hc hp
    rw [bcl_exec_block, hty, hc]
    simp only [hp]
  · intro fuel st b i fin paso hg
    rw [exec_for_loop, if_neg hg]
  · intro fuel st st2 b i fin paso hg hi
    rw [exec_for_loop, if_pos hg]
    simp [hi]
  · intro n
    simp [fmt_num, Rat.den_intCast, Rat.num_intCast]

/-- C4 witness: the loop conjuncts applied to a concrete For block —
one `1 TO 5 STEP 2` iteration from counter 1, and the stop case. -/
theorem C4_witness :
    ((0:Rat) < 2 ∧ (1:Rat) ≤ 5 ∨ (2:Rat) < 0 ∧ (5:Rat) ≤ 1)
    ∧ exec_block_items 10 (bcl_var_set bcl_interp_create (("__FOR").data) (fmt_num 1))
        c4_empty_for.items
        = some (BCL_OK, bcl_var_set bcl_interp_create (("__FOR").data) (fmt_num 1))
    ∧ exec_for_loop (10 + 1) bcl_interp_create c4_empty_for 1 5 2
        = exec_for_loop 10 (bcl_var_set bcl_interp_create (("__FOR").data) (fmt_num 1))
            c4_empty_for (1 + 2) 5 2
    ∧ ¬ ((0 < (0:Rat) ∧ (6:Rat) ≤ 5) ∨ ((0:Rat) < 0 ∧ (5:Rat) ≤ 6))
    ∧ exec_for_loop (0 + 1) bcl_interp_create c4_empty_for 6 5 0
        = some (BCL_OK, bcl_interp_create)
    ∧ fmt_num ((7 : Int) : Rat) = intToStr 7
    ∧ c4_empty_for.type = BLOCK_FOR
    ∧ bcl_exec_block (3 + 1) bcl_interp_create c4_empty_for
        = exec_for_loop 3 bcl_interp_create c4_empty_for 1 5 2 :=
  ⟨by norm_num, by with_unfolding_all rfl,
   C4_for_semantics.2.2.2.2.1 10 bcl_interp_create
     (bcl_var_set bcl_interp_create (("__FOR").data) (fmt_num 1)) c4_empty_for 1 5 2
     (by norm_num) (by with_unfolding_all rfl),
   by norm_num,
   C4_for_semantics.2.2.2.1 0 bcl_interp_create c4_empty_for 6 5 0 (by norm_num),
   C4_for_semantics.2.2.2.2.2.1 7, rfl,
   C4_for_semantics.2.2.1 3 bcl_interp_create c4_empty_for (("1 TO 5 STEP 2").data) 1 5 2
     rfl rfl (by with_unfolding_all rfl)⟩

/-- C5: calling a procedure with fewer positional arguments than its
count of required parameters yields `BCL_ERROR`, with the arity check
happening before any scope push: the resulting state differs from the
input only in the stored error message — the scope stack and every
variable table are unchanged. -/
theorem C5_arity_checked_before_push :
    ∀ (fuel : Nat) (st : bcl_interp_t) (name : Str) (args : List Str)
      (proc : bcl_procedure_t),
      bcl_hash_get st.procedures name = some proc →
      args.length < required_param_count proc →
      bcl_proc_call (fuel + 1) st name args
        = some (BCL_ERROR, none, { st with error_msg :=
            ("wrong # args: should be \"").data ++ name ++ (" param ...\"").data }) := by
  intro fuel st name args proc hl ha
  rw [bcl_proc_call]
  simp only [hl]
  simp [ha, bcl_set_error]

/-- C5 witness: calling the one-required-parameter procedure `p` with
no arguments. -/
theorem C5_witness :
    bcl_hash_get c5_state.procedures (("p").data) = some c5_proc
    ∧ ([] : List Str).length < required_param_count c5_proc
    ∧ bcl_proc_call (0 + 1) c5_state (("p").data) []
        = some (BCL_ERROR, none, { c5_state with error_msg :=
            ("wrong # args: should be \"").data ++ ("p").data ++ (" param ...\"").data }) :=
  ⟨by with_unfolding_all rfl, by decide,
   C5_arity_checked_before_push 0 c5_state (("p").data) [] c5_proc
     (by with_unfolding_all rfl) (by decide)⟩

/-- C6 counterexample: registering the container prefix `A(` via
`GLOBAL A(` inside a procedure and then setting the element `A(1)` does
NOT make `A(1)` visible in the global scope after the call (the write
stayed in the discarded local scope): `GLOBAL` records its arguments in
`global_refs`, while `is_global_var`'s prefix route consults only
`global_prefixes`, which no command ever populates.  The last two
conjuncts exhibit the mechanism: the prefix sits in the scope's
`global_refs`, yet `is_global_var` still classifies the element as
local. -/
theorem C6_counterexample :
    (bcl_eval_structured 64 bcl_interp_create c6_prefix_script).map
      (fun p => (p.1, bcl_hash_get p.2.global_vars (("A(1)").data), p.2.scope_stack.length))
      = some (BCL_OK, none, 0)
    ∧ bcl_hash_exists c6_scope.global_refs (("A(").data) = true
    ∧ is_global_var (some c6_scope) (("A(1)").data) = false :=
  ⟨by with_unfolding_all rfl, by with_unfolding_all rfl, by with_unfolding_all rfl⟩

/-- C6 (amended): with a local scope present, a name registered via
`GLOBAL` (recorded in the scope's `global_refs`) is routed on writes to
the global namespace; an array element is routed by container prefix
only through the scope's `global_prefixes` table, which `bcl_cmd_global`
never touches, so prefix registration via GLOBAL does not route
elements; reads check the local scope first with the global namespace
as fallback; and a variable marked GLOBAL inside a procedure and
mutated there is visible with the mutated value in the global scope
after the call returns. -/
theorem C6_global_routing :
    (∀ (st : bcl_interp_t) (sc : bcl_scope_t) (rest : List bcl_scope_t) (name v : Str),
        st.scope_stack = sc :: rest →
        bcl_hash_exists sc.global_refs name = true →
        bcl_var_set st name v = { st with global_vars := bcl_hash_set st.global_vars name v })
    ∧ (∀ (sc : bcl_scope_t) (name : Str),
        is_global_var (some sc) name = true ↔
        (bcl_hash_exists sc.global_refs name = true ∨
         (∃ pfx, array_container_key name = some pfx ∧
            bcl_hash_exists sc.global_prefixes pfx = true)))
    ∧ (∀ (st : bcl_interp_t) (argv : List Str),
        ((bcl_cmd_global st argv).2.2).scope_stack.map (fun sc => sc.global_prefixes)
          = st.scope_stack.map (fun sc => sc.global_prefixes))
    ∧ (∀ (st : bcl_interp_t) (sc : bcl_scope_t) (rest : List bcl_scope_t) (name : Str),
        st.scope_stack = sc :: rest →
        bcl_hash_get sc.vars name = none →
        bcl_var_get st name = bcl_hash_get st.global_vars name)
    ∧ (bcl_eval_structured 64 bcl_interp_create c6_script).map
        (fun p => (p.1, bcl_hash_get p.2.global_vars (("G").data), p.2.scope_stack.length))
        = some (BCL_OK, some (("inside").data), 0) := by
  refine ⟨?_, ?_, ?_, ?_, by with_unfolding_all rfl⟩
  · intro st sc rest name v hss h
    simp [bcl_var_set, get_current_scope, hss, is_global_var, h]
  · intro sc name
    by_cases h : bcl_hash_exists sc.global_refs name = true
    · simp [is_global_var, h]
    · rcases hk : array_container_key name with _ | pfx
      · simp [is_global_var, h, hk]
      · simp [is_global_var, h, hk]
  · intro st argv
    match argv with
    | [] => rfl
    | a :: rest =>
        match hss : st.scope_stack with
        | [] => simp [bcl_cmd_global, hss]
        | sc :: scs => simp [bcl_cmd_global, hss, set_current_scope]
  · intro st sc rest name hss h
    simp [bcl_var_get, get_current_scope, hss, h]

/-- C6 witness: the write-routing and read-fallback conjuncts applied
to a state whose scope registered `G` via GLOBAL. -/
theorem C6_witness :
    c6_refs_state.scope_stack = c6_refs_scope :: []
    ∧ bcl_hash_exists c6_refs_scope.global_refs (("G").data) = true
    ∧ bcl_var_set c6_refs_state (("G").data) (("inside").data)
        = { c6_refs_state with global_vars :=
            (bcl_hash_set c6_refs_state.global_vars (("G").data) (("inside").data)) }
    ∧ bcl_hash_get c6_refs_scope.vars (("Y").data) = none
    ∧ bcl_var_get c6_refs_state (("Y").data)
        = bcl_hash_get c6_refs_state.global_vars (("Y").data) :=
  ⟨rfl, by with_unfolding_all rfl,
   C6_global_routing.1 c6_refs_state c6_refs_scope [] (("G").data) (("inside").data)
     rfl (by with_unfolding_all rfl),
   rfl,
   C6_global_routing.2.2.2.1 c6_refs_state c6_refs_scope [] (("Y").data) rfl rfl⟩

/-- C7: the expression evaluator never raises an error for an invalid
arithmetic operation.  Conjuncts: the division operator with a zero
right operand yields 0.0 for every left operand; `bcl_cmd_expr` with at
least one argument always returns `BCL_OK` and leaves the state
untouched; and `EXPR 1 / 0` evaluates to `"0"` with `Ok`. -/
theorem C7_division_by_zero :
    (∀ l : Rat, apply_operator TOK_DIVIDE l 0 = 0)
    ∧ (∀ (st : bcl_interp_t) (argv : List Str), argv ≠ [] →
        (bcl_cmd_expr st argv).1 = BCL_OK ∧ (bcl_cmd_expr st argv).2.2 = st)
    ∧ bcl_cmd_expr bcl_interp_create [("1").data, ("/").data, ("0").data]
        = (BCL_OK, some (("0").data), bcl_interp_create) := by
  refine ⟨fun l => by simp [apply_operator], fun st argv h => ?_, by with_unfolding_all rfl⟩
  match argv with
  | [] => exact absurd rfl h
  | a :: rest => exact ⟨rfl, rfl⟩

/-- C7 witness: the never-errors conjunct applied to `EXPR 1`. -/
theorem C7_witness :
    ([("1").data] ≠ ([] : List Str))
    ∧ (bcl_cmd_expr bcl_interp_create [("1").data]).1 = BCL_OK
    ∧ (bcl_cmd_expr bcl_interp_create [("1").data]).2.2 = bcl_interp_create :=
  ⟨by decide, (C7_division_by_zero.2.1 bcl_interp_create [("1").data] (by decide)).1,
   (C7_division_by_zero.2.1 bcl_interp_create [("1").data] (by decide)).2⟩

/-- C8: block-parser tolerance.  Conjuncts: for every input the parser
returns a root Sequence block (`BLOCK_NONE`) — it is a total function
with no error outcome, and the frame stack structurally cannot drop
below the root (every pop is guarded by a non-empty-stack match,
mirroring the C `if (stack_top > 0)` guards); an `END` line seen at
root level (empty frame stack) is silently ignored; a script whose
`WHILE` lacks its `END` still parses, leaving the while block (with its
accumulated body) in the root; and an `END` that closes a `CASE` pops
once more, also closing the enclosing `SWITCH`, so the following line
lands at the root. -/
theorem C8_parser_tolerance :
    (∀ code : Str, (bcl_parse_blocks code).type = BLOCK_NONE)
    ∧ (∀ (ri : List block_item) (rc : List bcl_block) (ls : List Str),
        List.foldl parse_step ⟨ri, rc, []⟩ ((("END").data) :: ls)
          = List.foldl parse_step ⟨ri, rc, []⟩ ls)
    ∧ bcl_parse_blocks c8_unclosed_script
        = .mk BLOCK_NONE none none none
            [.block (.mk BLOCK_WHILE (some ['1']) none none [.line (("SET X 1").data)] [])] []
    ∧ bcl_parse_blocks c8_switch_script
        = .mk BLOCK_NONE none none none
            [.block (.mk BLOCK_SWITCH (some ['x']) none none []
               [.mk BLOCK_CASE (some ['a']) none none [.line (("SET Y 1").data)] []]),
             .line (("SET Z 2").data)] [] := by
  refine ⟨fun code => rfl, fun ri rc ls => ?_, by with_unfolding_all rfl,
    by with_unfolding_all rfl⟩
  have h : parse_step ⟨ri, rc, []⟩ (("END").data) = ⟨ri, rc, []⟩ := by
    with_unfolding_all rfl
  rw [List.foldl_cons, h]

set_option maxRecDepth 100000 in
/-- Helper for C9: executing the 1002-level nested-If tree at adequate
fuel (2 per level plus a constant) succeeds with `Ok` and an empty
error message. -/
theorem exec_nestedIf_1001 :
    (bcl_exec_block (2 * 1001 + 4) bcl_interp_create (nestedIf 1001)).map
      (fun p => (p.1, p.2.error_msg)) = some (BCL_OK, []) := by with_unfolding_all rfl

/-- C9: the claim (and spec section 5) requires a configurable maximum
recursion depth enforced for block-tree execution and procedure calls.
The code defines `BCL_MAX_RECURSION = 1000` and an (initialized, never
incremented, never compared) `recursion_depth` field, but only the
scope-depth limit of `bcl_scope_push` is actually enforced: executing a
block tree of nested If blocks 1002 levels deep — beyond
`BCL_MAX_RECURSION` — completes with `BCL_OK` and no error message, one
native `bcl_exec_block` stack frame per level, with no recursion check
anywhere on the path (the failing input).  The last conjunct shows the
only limit that is enforced: a scope push at `BCL_MAX_SCOPE_DEPTH`
yields the recoverable Error the claim asks for, covering procedure
calls but not block-tree recursion. -/
theorem C9_recursion_limit_not_enforced :
    BCL_MAX_RECURSION = 1000
    ∧ BCL_MAX_RECURSION < 1001
    ∧ (bcl_exec_block (2 * 1001 + 4) bcl_interp_create (nestedIf 1001)).map
        (fun p => (p.1, p.2.error_msg)) = some (BCL_OK, [])
    ∧ (∀ st : bcl_interp_t, BCL_MAX_SCOPE_DEPTH ≤ st.scope_stack.length →
        bcl_scope_push st
          = (BCL_ERROR, bcl_set_error st (("Maximum scope depth exceeded").data))) := by
  refine ⟨by decide, by decide, exec_nestedIf_1001, ?_⟩
  intro st h
  rw [bcl_scope_push, if_pos h]

set_option maxRecDepth 40000 in
/-- C9 witness: the scope-limit conjunct applied at a state already
holding `BCL_MAX_SCOPE_DEPTH` scopes. -/
theorem C9_witness :
    BCL_MAX_SCOPE_DEPTH ≤ full_scope_state.scope_stack.length
    ∧ bcl_scope_push full_scope_state
        = (BCL_ERROR, bcl_set_error full_scope_state (("Maximum scope depth exceeded").data)) :=
  ⟨by decide, C9_recursion_limit_not_enforced.2.2.2 full_scope_state (by decide)⟩

/-- C10: a For block whose parsed STEP is exactly 0 fails the iteration
guard immediately — the body runs zero times, the state is unchanged
and the block returns `Ok`.  Second conjunct: `1 TO 5 STEP 0` indeed
parses with step 0. -/
theorem C10_for_step_zero :
    (∀ (fuel : Nat) (st : bcl_interp_t) (b : bcl_block) (cond : Str) (i0 fin : Rat),
      b.type = BLOCK_FOR → b.condition = some cond →
      parse_for_condition cond = some (i0, fin, 0) →
      bcl_exec_block (fuel + 2) st b = some (BCL_OK, st))
    ∧ parse_for_condition (("1 TO 5 STEP 0").data) = some (1, 5, 0) := by
  constructor
  · intro fuel st b cond i0 fin hty hc hp
    show bcl_exec_block (fuel + 1 + 1) st b = some (BCL_OK, st)
    rw [bcl_exec_block, hty, hc]
    simp only [hp]
    rw [exec_for_loop]
    simp
  · with_unfolding_all rfl

/-- C10 witness: a concrete `FOR 1 TO 5 STEP 0` block (with a body that
would `BREAK` if it ever ran) returns `Ok` with the state untouched. -/
theorem C10_witness :
    c10_for_blk.type = BLOCK_FOR
    ∧ c10_for_blk.condition = some (("1 TO 5 STEP 0").data)
    ∧ parse_for_condition (("1 TO 5 STEP 0").data) = some (1, 5, 0)
    ∧ bcl_exec_block (0 + 2) bcl_interp_create c10_for_blk
        = some (BCL_OK, bcl_interp_create) :=
  ⟨rfl, rfl, by with_unfolding_all rfl,
   C10_for_step_zero.1 0 bcl_interp_create c10_for_blk (("1 TO 5 STEP 0").data) 1 5
     rfl rfl (by with_unfolding_all rfl)⟩
